import Mathlib

/-!
# Verification of the Xenon GPU abstraction layer

Shallow embedding of the backend code of the Xenon engine
(`VulkanCommandSubmitter`, `VulkanRasterizingPipeline`, `DX12Buffer` and the
shader-binding resolver) together with proofs of the specification claims
about it.

Conventions of the embedding:
* backend handles (semaphores, command buffers, pipelines) are `Nat` ids;
* raw pointers become `Option`;
* byte blobs become `List Nat`;
* fallible backend entry points (`vkCreatePipelineCache`, event creation)
  are oracles passed in as explicit arguments;
* machine integers that are only compared / ORed are `Nat`.
-/

/-! ## VulkanCommandSubmitter (VulkanCommandSubmitter.cpp) -/

/-- The data `VulkanCommandSubmitter::submit` reads from each command
recorder's current command buffer: the `VkCommandBuffer` handle, its signal
semaphore and its pipeline stage flags. -/
structure VulkanCommandBufferRef where
  commandBuffer : Nat
  signalSemaphore : Nat
  stageFlags : Nat
deriving DecidableEq, Repr

/-- The part of a `VulkanSwapchain` that `submit` consults: renderability and
the two presentation semaphores. -/
structure VulkanSwapchain where
  renderable : Bool
  inFlightSemaphore : Nat
  renderFinishedSemaphore : Nat
deriving DecidableEq, Repr

/-- `VK_PIPELINE_STAGE_COLOR_ATTACHMENT_OUTPUT_BIT`. -/
def vkPipelineStageColorAttachmentOutputBit : Nat := 0x400

/-- One `VkSubmitInfo` submission descriptor (the fields the code fills in). -/
structure VkSubmitInfo where
  waitSemaphores : List Nat
  waitDstStageMask : List Nat
  commandBuffers : List Nat
  signalSemaphores : List Nat
deriving DecidableEq, Repr

instance : Inhabited VkSubmitInfo := ⟨⟨[], [], [], []⟩⟩

/-- The descriptor built for one batch.  The wait fields are assigned inside
the per-recorder loop (`if (!waitSemaphores.empty())` on the outer vector of
semaphore vectors, whose back is `top`), so they stay zero-initialised (empty)
when the batch has no recorders.  `top = none` models the outer vector being
empty. -/
def submitBatchInfo (top : Option (List Nat × List Nat))
    (batch : List VulkanCommandBufferRef) : VkSubmitInfo :=
  { waitSemaphores := if batch.isEmpty then [] else (top.map (·.1)).getD []
    waitDstStageMask := if batch.isEmpty then [] else (top.map (·.2)).getD []
    commandBuffers := batch.map (·.commandBuffer)
    signalSemaphores := batch.map (·.signalSemaphore) }

/-- The `for (const auto& pCommandRecorderBatch : pCommandRecorders)` loop of
`VulkanCommandSubmitter::submit`: after emitting a batch's descriptor, the
batch's signal semaphores and stage flags are pushed onto the outer vectors,
becoming the `top` used by the next batch. -/
def submitLoop (top : Option (List Nat × List Nat)) :
    List (List VulkanCommandBufferRef) → List VkSubmitInfo
  | [] => []
  | batch :: rest =>
      submitBatchInfo top batch ::
        submitLoop (some (batch.map (·.signalSemaphore), batch.map (·.stageFlags))) rest

/-- `submitInfos.back().pSignalSemaphores = ...` : replace the signal
semaphores of the last descriptor. -/
def setLastSignal (sems : List Nat) : List VkSubmitInfo → List VkSubmitInfo
  | [] => []
  | [info] => [{ info with signalSemaphores := sems }]
  | info :: rest => info :: setLastSignal sems rest

/-- The seed of the outer wait vector before the batch loop: the swapchain's
image-available ("in flight") semaphore, when the swapchain is present and
renderable. -/
def submitSeed (pVkSwapchain : Option VulkanSwapchain) :
    Option (List Nat × List Nat) :=
  match pVkSwapchain with
  | some s =>
      if s.renderable then
        some ([s.inFlightSemaphore], [vkPipelineStageColorAttachmentOutputBit])
      else none
  | none => none

/-- The list of submission descriptors built by
`VulkanCommandSubmitter::submit(pCommandRecorders, pSwapchain)`.
`pSwapchain->as<VulkanSwapchain>()` is a static downcast that maps the null
pointer to the null pointer without dereferencing it; it is modelled as the
identity on `Option`.  If the swapchain is present and renderable the outer
wait vector is seeded with the image-available ("in flight") semaphore
(`submitSeed`), and after the loop the last descriptor's signal semaphores
are replaced by the render-finished semaphore. -/
def VulkanCommandSubmitter.submitInfos
    (pCommandRecorders : List (List VulkanCommandBufferRef))
    (pSwapchain : Option VulkanSwapchain) : List VkSubmitInfo :=
  let pVkSwapchain := pSwapchain
  let infos := submitLoop (submitSeed pVkSwapchain) pCommandRecorders
  match pVkSwapchain with
  | some s => if !infos.isEmpty && s.renderable
      then setLastSignal [s.renderFinishedSemaphore] infos
      else infos
  | none => infos

/-- The submitter state observed by `wait`: the `m_bIsWaiting` flag. -/
structure VulkanCommandSubmitterState where
  bIsWaiting : Bool
deriving DecidableEq, Repr

/-- `m_bIsWaiting = !pCommandRecorders.empty();` — the state update `submit`
performs on the submitter. -/
def VulkanCommandSubmitter.submitUpdate
    (pCommandRecorders : List (List VulkanCommandBufferRef)) :
    VulkanCommandSubmitterState :=
  { bIsWaiting := !pCommandRecorders.isEmpty }

/-- `VulkanCommandSubmitter::wait(timeout)`: blocks on (and then resets) the
fence only when `m_bIsWaiting` is set, then clears the flag.  Returns the new
state and whether a blocking `vkWaitForFences` was performed. -/
def VulkanCommandSubmitter.wait (s : VulkanCommandSubmitterState) :
    VulkanCommandSubmitterState × Bool :=
  if s.bIsWaiting then ({ bIsWaiting := false }, true) else (s, false)

/-- The property claimed for the inter-batch semaphore chain: the descriptor
of batch `i + 1` lists exactly batch `i`'s signal semaphores as its wait
semaphores. -/
def waitChainHolds (batches : List (List VulkanCommandBufferRef))
    (pSwapchain : Option VulkanSwapchain) : Prop :=
  ∀ i, i + 1 < batches.length →
    ((VulkanCommandSubmitter.submitInfos batches pSwapchain).getD (i + 1)
        default).waitSemaphores =
      (batches.getD i []).map (·.signalSemaphore)

/-! ## VulkanRasterizingPipeline cache load/store
(VulkanRasterizingPipeline.cpp, `loadPipelineCache` / `savePipelineCache`) -/

/-- The `VkResult` values `loadPipelineCache` distinguishes. -/
inductive VkResult where
  | success
  | errorUnknown
  | errorOther
deriving DecidableEq, Repr

/-- The injected pipeline-cache persistence handler (`load` only; `store` is
modelled by the value returned from `savePipelineCache`). -/
structure PipelineCacheHandler where
  load : Nat → List Nat

/-- The magic number XORed into the hash to separate the rasterizing
pipeline's cache namespace. -/
def g_MagicNumber : Nat :=
  0b0111110011100110101100111010010010001011111101111110001010110001

/-- Outcome of `loadPipelineCache`: the initial-data blobs passed to the
successive `vkCreatePipelineCache` attempts (in order), and whether the load
ended in the fatal path (a `XENON_VK_ASSERT` failure). -/
structure LoadCacheResult where
  attempts : List (List Nat)
  fatal : Bool
deriving DecidableEq, Repr

/-- `VulkanRasterizingPipeline::loadPipelineCache`: fetch the blob through the
handler when present (else log and use empty data), create the backend cache
object, and on `VK_ERROR_UNKNOWN` retry exactly once with empty initial data;
any remaining non-success result is fatal.  `vkCreatePipelineCache` is an
oracle from the initial data to a `VkResult`. -/
def VulkanRasterizingPipeline.loadPipelineCache
    (pCacheHandler : Option PipelineCacheHandler) (hash : Nat)
    (vkCreatePipelineCache : List Nat → VkResult) : LoadCacheResult :=
  let cacheData : List Nat :=
    match pCacheHandler with
    | some h => h.load (hash ^^^ g_MagicNumber)
    | none => []
  let result := vkCreatePipelineCache cacheData
  if result = VkResult.errorUnknown then
    { attempts := [cacheData, []]
      fatal := vkCreatePipelineCache [] ≠ VkResult.success }
  else
    { attempts := [cacheData], fatal := result ≠ VkResult.success }

/-- `VulkanRasterizingPipeline::savePipelineCache`: when a handler is present,
fetch the backend blob (`vkGetPipelineCacheData`, an oracle value here) and
store it under `hash ^ g_MagicNumber`; without a handler nothing is persisted
(a log note only).  Returns the `(key, blob)` handed to `store`, if any. -/
def VulkanRasterizingPipeline.savePipelineCache
    (pCacheHandler : Option PipelineCacheHandler) (hash : Nat)
    (backendCacheData : List Nat) : Option (Nat × List Nat) :=
  match pCacheHandler with
  | some _ => some (hash ^^^ g_MagicNumber, backendCacheData)
  | none => none

/-! ## DX12Buffer (DX12Buffer.cpp) -/

/-- The `D3D12_HEAP_TYPE` values the buffer code distinguishes. -/
inductive D3D12HeapType where
  | defaultHeap
  | upload
  | readback
deriving DecidableEq, Repr

/-- The `D3D12_RESOURCE_STATES` values the buffer code distinguishes. -/
inductive D3D12ResourceState where
  | common
  | indexBuffer
  | vertexAndConstantBuffer
  | genericRead
  | copyDest
  | copySource
deriving DecidableEq, Repr

/-- `std::copy_n(pData, size, mappedMemory + offset)`: overwrite
`data.length` bytes of `buf` starting at `offset`.  Matches the source
behaviour when `offset + data.length ≤ buf.length`. -/
def storeBytes (buf data : List Nat) (offset : Nat) : List Nat :=
  buf.take offset ++ data ++ buf.drop (offset + data.length)

/-- `CopyBufferRegion(dst, dstOffset, src, srcOffset, size)`: overwrite
`size` bytes of `dst` at `dstOffset` with the bytes of `src` at
`srcOffset`. -/
def copyRegionBytes (dst : List Nat) (dstOffset : Nat) (src : List Nat)
    (srcOffset size : Nat) : List Nat :=
  dst.take dstOffset ++ (src.drop srcOffset).take size ++ dst.drop (dstOffset + size)

/-- The observable state of a `DX12Buffer`: its size, heap type, resource
state, byte contents, and the contents of the two lazily created persistent
staging buffers (`m_pTemporaryWriteBuffer` / `m_pTemporaryReadBuffer`, both
created with size `m_Size`; `none` models the null pointer). -/
structure DX12Buffer where
  size : Nat
  heapType : D3D12HeapType
  currentState : D3D12ResourceState
  contents : List Nat
  tempWriteContents : Option (List Nat)
  tempReadContents : Option (List Nat)
deriving DecidableEq, Repr

/-- `DX12Buffer::write(pData, size, offset)` with a null command recorder.
Host-visible path (`m_HeapType == D3D12_HEAP_TYPE_UPLOAD &&
m_CurrentState == D3D12_RESOURCE_STATE_GENERIC_READ`): map, `copy_n` at
`offset`, unmap.  Otherwise: lazily create the persistent upload staging
buffer of size `m_Size` (fresh memory modelled as zeroed), `copy_n` the data
into it at `offset`, then `copy(staging, size, offset, offset)`, whose
`CopyBufferRegion` copies the written region into this buffer. -/
def DX12Buffer.write (b : DX12Buffer) (data : List Nat) (offset : Nat) :
    DX12Buffer :=
  if b.heapType = D3D12HeapType.upload ∧
      b.currentState = D3D12ResourceState.genericRead then
    { b with contents := storeBytes b.contents data offset }
  else
    let temp0 := b.tempWriteContents.getD (List.replicate b.size 0)
    let temp1 := storeBytes temp0 data offset
    { b with
        contents := copyRegionBytes b.contents offset temp1 offset data.length
        tempWriteContents := some temp1 }

/-- `DX12Buffer::beginRead` (= `map()`): lazily create the persistent
readback staging buffer of size `m_Size`, `copy(this, m_Size, 0, 0)` into it,
map it and return its bytes.  Returns the updated buffer and the mapped
bytes. -/
def DX12Buffer.beginRead (b : DX12Buffer) : DX12Buffer × List Nat :=
  let temp0 := b.tempReadContents.getD (List.replicate b.size 0)
  let temp1 := copyRegionBytes temp0 0 b.contents 0 b.size
  ({ b with tempReadContents := some temp1 }, temp1)

/-- Well-formedness of a buffer: the contents and any staging buffers have
exactly `size` bytes (they are all created with size `m_Size`). -/
def DX12Buffer.wf (b : DX12Buffer) : Prop :=
  b.contents.length = b.size ∧
    (∀ t, b.tempWriteContents = some t → t.length = b.size) ∧
    (∀ t, b.tempReadContents = some t → t.length = b.size)

/-- The state of a buffer that `performCopy` consults when deciding whether
to insert resource-state transitions. -/
structure DX12BufferDesc where
  currentState : D3D12ResourceState
  heapType : D3D12HeapType
deriving DecidableEq, Repr

/-- The observable steps of `DX12Buffer::copy` / `DX12Buffer::performCopy`.
The `resource` tag of a barrier is `0` for the destination (`this`) and `1`
for the source buffer. -/
inductive DX12CopyStep where
  | resetCommandAllocator
  | resetCommandList
  | resourceBarrier (resource : Nat) (stateBefore stateAfter : D3D12ResourceState)
  | copyBufferRegion (dstOffset srcOffset size : Nat)
  | closeCommandList
  | executeCommandLists
  | createFence
  | signalFence (value : Nat)
  | createEvent
  | logEventFailure
  | setEventOnCompletion (value : Nat)
  | waitForSingleObject
  | closeEventHandle
deriving DecidableEq, Repr

/-- `performCopy`'s transition guard: a buffer is transitioned into (and back
out of) the copy state unless it is in `GENERIC_READ` or on a `READBACK`
heap. -/
def needsTransition (d : DX12BufferDesc) : Bool :=
  d.currentState ≠ D3D12ResourceState.genericRead &&
    d.heapType ≠ D3D12HeapType.readback

/-- `DX12Buffer::performCopy(pCommandlist, pBuffer, size, srcOffset,
dstOffset)`: paired state transitions around one full-size
`CopyBufferRegion`. -/
def DX12Buffer.performCopySteps (dst src : DX12BufferDesc)
    (size srcOffset dstOffset : Nat) : List DX12CopyStep :=
  (if needsTransition dst then
      [DX12CopyStep.resourceBarrier 0 dst.currentState D3D12ResourceState.copyDest]
    else []) ++
  (if needsTransition src then
      [DX12CopyStep.resourceBarrier 1 src.currentState D3D12ResourceState.copySource]
    else []) ++
  [DX12CopyStep.copyBufferRegion dstOffset srcOffset size] ++
  (if needsTransition dst then
      [DX12CopyStep.resourceBarrier 0 D3D12ResourceState.copyDest dst.currentState]
    else []) ++
  (if needsTransition src then
      [DX12CopyStep.resourceBarrier 1 D3D12ResourceState.copySource src.currentState]
    else [])

/-- `DX12Buffer::copy(pBuffer, size, srcOffset, dstOffset)`: reset the
one-shot command list, record the copy, close, execute, then create a fence,
signal it and block the host on the fence event.  `CreateEvent` is fallible:
`eventOk = false` models the path where the event cannot be created — the
code logs an error and returns early, after submission but without any
blocking wait. -/
def DX12Buffer.copySteps (dst src : DX12BufferDesc)
    (size srcOffset dstOffset : Nat) (eventOk : Bool) : List DX12CopyStep :=
  [DX12CopyStep.resetCommandAllocator, DX12CopyStep.resetCommandList] ++
  DX12Buffer.performCopySteps dst src size srcOffset dstOffset ++
  [DX12CopyStep.closeCommandList, DX12CopyStep.executeCommandLists,
    DX12CopyStep.createFence, DX12CopyStep.signalFence 1] ++
  (if eventOk then
      [DX12CopyStep.setEventOnCompletion 1, DX12CopyStep.waitForSingleObject,
        DX12CopyStep.closeEventHandle]
    else [DX12CopyStep.logEventFailure])

/-- Check whether a step is the `CopyBufferRegion` command. -/
def DX12CopyStep.isCopyRegion : DX12CopyStep → Bool
  | DX12CopyStep.copyBufferRegion _ _ _ => true
  | _ => false

/-! ## Shader binding resolution & pipeline variants
(VulkanRasterizingPipeline.cpp: `GetShaderBindings`, `getPipeline`) -/

/-- A shader resource (`Backend::ShaderResource`): its binding index, its
descriptor set (`DescriptorType`, a small enum modelled as `Nat`) and its
resource type (`ResourceType` as `Nat`). -/
structure ShaderResource where
  binding : Nat
  set : Nat
  type : Nat
deriving DecidableEq, Repr

/-- A shader input attribute (`Backend::ShaderAttribute`): its location.  Its
`AttributeDataType` is not consulted by the code under verification. -/
structure ShaderAttribute where
  location : Nat
deriving DecidableEq, Repr

/-- The reflection data of one `Backend::Shader` plus the validity of its
SPIR-V binary (`getSPIRV().isValid()`), which gates whether the constructor
merges the stage at all. -/
structure ShaderData where
  valid : Bool
  resources : List ShaderResource
  inputAttributes : List ShaderAttribute
deriving Repr

/-- A `DescriptorBindingInfo`: the resource type recorded on first insertion
and the OR-accumulated stage-applicability mask. -/
structure DescriptorBindingInfo where
  type : Nat
  applicableShaders : Nat
deriving DecidableEq, Repr

/-- The per-pipeline binding map `set → binding → DescriptorBindingInfo`.
The two nested `unordered_map`s are flattened to one association list keyed
by the `(set, binding)` pair; only `contains`, lookup and in-place update are
performed on them, so the flattening is behaviour-preserving. -/
abbrev BindingMap := List ((Nat × Nat) × DescriptorBindingInfo)

/-- The `(set, binding)` key of a resource. -/
def bindingKey (r : ShaderResource) : Nat × Nat := (r.set, r.binding)

/-- Lookup in the binding map. -/
def BindingMap.findInfo : BindingMap → Nat × Nat → Option DescriptorBindingInfo
  | [], _ => none
  | (k, info) :: rest, key =>
      if k = key then some info else BindingMap.findInfo rest key

/-- `bindings.contains(binding)` on the flattened map. -/
def BindingMap.containsKey (m : BindingMap) (key : Nat × Nat) : Bool :=
  (m.findInfo key).isSome

/-- In-place update of the (unique) entry with the given key. -/
def BindingMap.updateInfo : BindingMap → Nat × Nat →
    (DescriptorBindingInfo → DescriptorBindingInfo) → BindingMap
  | [], _, _ => []
  | (k, info) :: rest, key, f =>
      if k = key then (k, f info) :: rest
      else (k, info) :: BindingMap.updateInfo rest key f

/-- Number of entries of the map carrying a given key. -/
def BindingMap.countKey (m : BindingMap) (key : Nat × Nat) : Nat :=
  m.countP (fun e => e.1 = key)

/-- One iteration of the resource-merge loop of `GetShaderBindings`: if the
`(set, binding)` pair is present, OR the stage mask into the existing entry;
otherwise insert a fresh entry recording the resource type and the stage
mask. -/
def mergeResource (type : Nat) (m : BindingMap) (r : ShaderResource) :
    BindingMap :=
  if m.containsKey (bindingKey r) then
    m.updateInfo (bindingKey r)
      (fun info =>
        { info with applicableShaders := info.applicableShaders ||| type })
  else
    m ++ [(bindingKey r, { type := r.type, applicableShaders := type })]

/-- The whole resource-merge loop of `GetShaderBindings`. -/
def mergeResources (m : BindingMap) (resources : List ShaderResource)
    (type : Nat) : BindingMap :=
  resources.foldl (mergeResource type) m

/-- `ShaderType::Vertex` and `ShaderType::Fragment`.  Modelled from the spec:
the `ShaderType` enum itself is declared in a header outside this snapshot;
the spec describes the stage-applicability value as an OR-accumulated bitmask,
so the two stages are modelled as distinct single-bit masks. -/
def shaderTypeVertex : Nat := 1

/-- See `shaderTypeVertex`. -/
def shaderTypeFragment : Nat := 2

/-- The `InputElement` / `InstanceEntry` conventions.  Modelled from the
spec: the `InputElement` enum, `IsVertexElement` (the "fixed location-range
convention" of §4.2) and the `InstanceEntry` record layout are declared in
headers outside this snapshot, so they are abstracted into this parameter
structure: the vertex/instance partition predicate, the four instance
attribute locations with their record offsets, and the instance record
size (`sizeof(InstanceEntry)`). -/
structure InputElementScheme where
  isVertexElement : Nat → Bool
  instancePositionLoc : Nat
  instanceRotationLoc : Nat
  instanceScaleLoc : Nat
  instanceIDLoc : Nat
  offsetPosition : Nat
  offsetRotation : Nat
  offsetScale : Nat
  offsetInstanceID : Nat
  instanceEntrySize : Nat

/-- The `VkFormat` values produced by the pipeline code. -/
inductive VkFormat where
  | undefined
  | r8Uint | r16Uint | r32Uint | r64Uint
  | r8Sint | r16Sint | r32Sint | r64Sint
  | r32Sfloat
  | r8g8Uint | r16g16Uint | r32g32Uint | r64g64Uint
  | r8g8Sint | r16g16Sint | r32g32Sint | r64g64Sint
  | r32g32Sfloat
  | r8g8b8Uint | r16g16b16Uint | r32g32b32Uint | r64g64b64Uint
  | r8g8b8Sint | r16g16b16Sint | r32g32b32Sint | r64g64b64Sint
  | r32g32b32Sfloat
  | r8g8b8a8Unorm | r16g16b16a16Uint | r32g32b32a32Uint | r64g64b64a64Uint
  | r8g8b8a8Snorm | r16g16b16a16Sint | r32g32b32a32Sint | r64g64b64a64Sint
  | r32g32b32a32Sfloat
deriving DecidableEq, Repr

/-- The `ComponentDataType` values `GetElementFormat` distinguishes (the
`unknown` constructor stands for every enumerator that falls into the
`default:` branch). -/
inductive ComponentDataType where
  | uint8 | uint16 | uint32 | uint64
  | int8 | int16 | int32 | int64
  | float
  | unknown
deriving DecidableEq, Repr

/-- `GetElementFormat(componentCount, dataType)`: the element-format table of
VulkanRasterizingPipeline.cpp; unmatched combinations log an error and fall
back to `VK_FORMAT_UNDEFINED`. -/
def GetElementFormat (componentCount : Nat) (dataType : ComponentDataType) :
    VkFormat :=
  if componentCount = 1 then
    match dataType with
    | ComponentDataType.uint8 => VkFormat.r8Uint
    | ComponentDataType.uint16 => VkFormat.r16Uint
    | ComponentDataType.uint32 => VkFormat.r32Uint
    | ComponentDataType.uint64 => VkFormat.r64Uint
    | ComponentDataType.int8 => VkFormat.r8Sint
    | ComponentDataType.int16 => VkFormat.r16Sint
    | ComponentDataType.int32 => VkFormat.r32Sint
    | ComponentDataType.int64 => VkFormat.r64Sint
    | ComponentDataType.float => VkFormat.r32Sfloat
    | ComponentDataType.unknown => VkFormat.undefined
  else if componentCount = 2 then
    match dataType with
    | ComponentDataType.uint8 => VkFormat.r8g8Uint
    | ComponentDataType.uint16 => VkFormat.r16g16Uint
    | ComponentDataType.uint32 => VkFormat.r32g32Uint
    | ComponentDataType.uint64 => VkFormat.r64g64Uint
    | ComponentDataType.int8 => VkFormat.r8g8Sint
    | ComponentDataType.int16 => VkFormat.r16g16Sint
    | ComponentDataType.int32 => VkFormat.r32g32Sint
    | ComponentDataType.int64 => VkFormat.r64g64Sint
    | ComponentDataType.float => VkFormat.r32g32Sfloat
    | ComponentDataType.unknown => VkFormat.undefined
  else if componentCount = 3 then
    match dataType with
    | ComponentDataType.uint8 => VkFormat.r8g8b8Uint
    | ComponentDataType.uint16 => VkFormat.r16g16b16Uint
    | ComponentDataType.uint32 => VkFormat.r32g32b32Uint
    | ComponentDataType.uint64 => VkFormat.r64g64b64Uint
    | ComponentDataType.int8 => VkFormat.r8g8b8Sint
    | ComponentDataType.int16 => VkFormat.r16g16b16Sint
    | ComponentDataType.int32 => VkFormat.r32g32b32Sint
    | ComponentDataType.int64 => VkFormat.r64g64b64Sint
    | ComponentDataType.float => VkFormat.r32g32b32Sfloat
    | ComponentDataType.unknown => VkFormat.undefined
  else if componentCount = 4 then
    match dataType with
    | ComponentDataType.uint8 => VkFormat.r8g8b8a8Unorm
    | ComponentDataType.uint16 => VkFormat.r16g16b16a16Uint
    | ComponentDataType.uint32 => VkFormat.r32g32b32a32Uint
    | ComponentDataType.uint64 => VkFormat.r64g64b64a64Uint
    | ComponentDataType.int8 => VkFormat.r8g8b8a8Snorm
    | ComponentDataType.int16 => VkFormat.r16g16b16a16Sint
    | ComponentDataType.int32 => VkFormat.r32g32b32a32Sint
    | ComponentDataType.int64 => VkFormat.r64g64b64a64Sint
    | ComponentDataType.float => VkFormat.r32g32b32a32Sfloat
    | ComponentDataType.unknown => VkFormat.undefined
  else VkFormat.undefined

/-- A `VkVertexInputAttributeDescription`.  `emplace_back()` value-initialises
it, so the format starts as `VK_FORMAT_UNDEFINED` and the offset as `0`. -/
structure VkVertexInputAttributeDescription where
  binding : Nat
  location : Nat
  format : VkFormat
  offset : Nat
deriving DecidableEq, Repr

/-- A `VkVertexInputBindingDescription`. -/
inductive VkVertexInputRate where
  | vertex
  | instance_
deriving DecidableEq, Repr

/-- See `VkVertexInputRate`. -/
structure VkVertexInputBindingDescription where
  binding : Nat
  inputRate : VkVertexInputRate
  stride : Nat
deriving DecidableEq, Repr

/-- One iteration of the input-attribute loop of `GetShaderBindings` (vertex
stage): binding `0` for vertex elements and `1` for instance elements, and
the fixed `InstanceEntry` offsets/formats for the four instance elements. -/
def shaderInputAttribute (scheme : InputElementScheme) (loc : Nat) :
    VkVertexInputAttributeDescription :=
  let base : VkVertexInputAttributeDescription :=
    { binding := if scheme.isVertexElement loc then 0 else 1
      location := loc
      format := VkFormat.undefined
      offset := 0 }
  if loc = scheme.instancePositionLoc then
    { base with format := VkFormat.r32g32b32Sfloat
                offset := scheme.offsetPosition }
  else if loc = scheme.instanceRotationLoc then
    { base with format := VkFormat.r32g32b32Sfloat
                offset := scheme.offsetRotation }
  else if loc = scheme.instanceScaleLoc then
    { base with format := VkFormat.r32g32b32Sfloat
                offset := scheme.offsetScale }
  else if loc = scheme.instanceIDLoc then
    { base with format := VkFormat.r32Uint
                offset := scheme.offsetInstanceID }
  else base

/-- The three outputs `GetShaderBindings` accumulates into the pipeline
object under construction. -/
structure PipelineCtorState where
  bindingMap : BindingMap
  vertexInputBindings : List VkVertexInputBindingDescription
  vertexInputAttributes : List VkVertexInputAttributeDescription

/-- `GetShaderBindings(shader, bindingMap, …, type)`: merge the stage's
resources into the binding map; for the vertex stage additionally append the
shader's input attributes and, when at least one of them is an instance
element (`hasInstanceInputs`), the per-instance input binding (binding `1`,
per-instance rate, stride `sizeof(InstanceEntry)`). -/
def GetShaderBindings (scheme : InputElementScheme) (shader : ShaderData)
    (s : PipelineCtorState) (type : Nat) : PipelineCtorState :=
  let m := mergeResources s.bindingMap shader.resources type
  if type &&& shaderTypeVertex ≠ 0 then
    let attrs := s.vertexInputAttributes ++
      shader.inputAttributes.map (fun ia => shaderInputAttribute scheme ia.location)
    let hasInstanceInputs :=
      shader.inputAttributes.any (fun ia => !scheme.isVertexElement ia.location)
    let binds :=
      if hasInstanceInputs then
        s.vertexInputBindings ++
          [{ binding := 1
             inputRate := VkVertexInputRate.instance_
             stride := scheme.instanceEntrySize }]
      else s.vertexInputBindings
    { bindingMap := m, vertexInputBindings := binds, vertexInputAttributes := attrs }
  else
    { s with bindingMap := m }

/-- The shader-dependent state built by the `VulkanRasterizingPipeline`
constructor: `GetShaderBindings` for the vertex shader (if its SPIR-V is
valid) and then for the fragment shader (if valid), threading the binding map
and the vertex-input vectors. -/
def VulkanRasterizingPipeline.ctorState (scheme : InputElementScheme)
    (vertexShader fragmentShader : ShaderData) : PipelineCtorState :=
  let s0 : PipelineCtorState :=
    { bindingMap := [], vertexInputBindings := [], vertexInputAttributes := [] }
  let s1 :=
    if vertexShader.valid then
      GetShaderBindings scheme vertexShader s0 shaderTypeVertex
    else s0
  if fragmentShader.valid then
    GetShaderBindings scheme fragmentShader s1 shaderTypeFragment
  else s1

/-- The part of a `VertexSpecification` that `getPipeline` consults, as an
oracle: availability, offset, component count and component data type per
input element (location), the total vertex size, and the hash
(`generateHash()`).  `componentCountOf` is the composition
`GetAttributeDataTypeComponentCount(getElementAttributeDataType(element))`
of the source. -/
structure VertexSpecification where
  hash : Nat
  isAvailable : Nat → Bool
  offsetOf : Nat → Nat
  componentCountOf : Nat → Nat
  componentDataTypeOf : Nat → ComponentDataType
  size : Nat

/-- One pipeline variant (`VulkanRasterizingPipeline::PipelineStorage`): the
backend pipeline handle and the vertex-input state it was compiled with.  The
handle is the value of the compile counter at creation, so distinct
compilations yield distinct handles. -/
structure PipelineStorage where
  pipeline : Nat
  inputBindingDescriptions : List VkVertexInputBindingDescription
  inputAttributeDescriptions : List VkVertexInputAttributeDescription
deriving DecidableEq, Repr

/-- The attribute-resolution step of `getPipeline`: instance attributes
(binding `1`) are skipped; a vertex attribute available in the requested
layout receives its concrete offset and element format from the layout. -/
def resolveAttribute (v : VertexSpecification)
    (a : VkVertexInputAttributeDescription) : VkVertexInputAttributeDescription :=
  if a.binding = 1 then a
  else if v.isAvailable a.location then
    { a with
        offset := v.offsetOf a.location
        format := GetElementFormat (v.componentCountOf a.location)
          (v.componentDataTypeOf a.location) }
  else a

/-- `hasVertexData` of `getPipeline`: some non-instance attribute was
populated from the requested layout. -/
def hasVertexData (po : PipelineCtorState) (v : VertexSpecification) : Bool :=
  po.vertexInputAttributes.any
    (fun a => a.binding ≠ 1 && v.isAvailable a.location)

/-- The compile step of `getPipeline` for an unseen hash: copy the
constructor's input state, resolve the attributes against the requested
layout, sort them by offset (`std::ranges::sort` on `offset <`; modelled by a
merge sort on `offset ≤`, which produces the same nondecreasing-offset
ordering), and append the per-vertex input binding (binding `0`, per-vertex
rate, stride `getSize()`) only when `hasVertexData`.  `id` is the fresh
backend pipeline handle produced by `vkCreateGraphicsPipelines`. -/
def compileVariant (po : PipelineCtorState) (v : VertexSpecification)
    (id : Nat) : PipelineStorage :=
  let attrs := (po.vertexInputAttributes.map (resolveAttribute v)).mergeSort
    (fun l r => l.offset ≤ r.offset)
  let binds :=
    if hasVertexData po v then
      po.vertexInputBindings ++
        [{ binding := 0, inputRate := VkVertexInputRate.vertex, stride := v.size }]
    else po.vertexInputBindings
  { pipeline := id
    inputBindingDescriptions := binds
    inputAttributeDescriptions := attrs }

/-- The variant-map state of one pipeline object: `m_Pipelines` (hash →
variant) and the compile counter that hands out fresh backend pipeline
handles. -/
structure RasterizingPipelineState where
  pipelines : List (Nat × PipelineStorage)
  nextPipelineId : Nat
deriving Repr

/-- The empty variant map of a freshly constructed pipeline object. -/
def RasterizingPipelineState.initial : RasterizingPipelineState :=
  { pipelines := [], nextPipelineId := 0 }

/-- `VulkanRasterizingPipeline::getPipeline(vertexSpecification)`: hash the
specification; under the pipeline mutex, if the hash is unseen, compile a
variant for it (load cache → resolve inputs → create pipeline → save cache)
and store it under the hash; finally return the variant stored under the
hash. -/
def VulkanRasterizingPipeline.getPipeline (po : PipelineCtorState)
    (s : RasterizingPipelineState) (v : VertexSpecification) :
    RasterizingPipelineState × PipelineStorage :=
  let hash := v.hash
  match s.pipelines.lookup hash with
  | some storage => (s, storage)
  | none =>
      let storage := compileVariant po v s.nextPipelineId
      ({ pipelines := s.pipelines ++ [(hash, storage)]
         nextPipelineId := s.nextPipelineId + 1 },
        storage)

/-- A sequence of `getPipeline` requests against one pipeline object. -/
def VulkanRasterizingPipeline.runRequests (po : PipelineCtorState)
    (s : RasterizingPipelineState) (reqs : List VertexSpecification) :
    RasterizingPipelineState :=
  reqs.foldl (fun st v => (VulkanRasterizingPipeline.getPipeline po st v).1) s

/-- Number of variant-map entries stored under a hash. -/
def pipelineCountKey (m : List (Nat × PipelineStorage)) (h : Nat) : Nat :=
  m.countP (fun e => e.1 = h)

/-- All signal semaphores owned by the recorders of a batch list. -/
def batchSignalSemaphores (batches : List (List VulkanCommandBufferRef)) :
    List Nat :=
  batches.foldr (fun b acc => b.map (·.signalSemaphore) ++ acc) []

/-- The keys of a binding map. -/
def BindingMap.keys (m : BindingMap) : List (Nat × Nat) := m.map (·.1)

/-- The keys of a variant map. -/
def variantKeys (m : List (Nat × PipelineStorage)) : List Nat := m.map (·.1)

/-! # Theorems -/

/-! ## C4 — `wait` idempotence -/

/-- C4: `CommandSubmitter::wait` is idempotent.  If no submission is
outstanding (`m_bIsWaiting = false`) a call performs no blocking fence
operation and leaves the submitter state unchanged; of two consecutive
`wait` calls the second never blocks and does not change the state; and a
`submit` of an empty batch list leaves no submission outstanding, so a
following `wait` does not block either. -/
theorem wait_idempotent_no_block :
    (∀ s : VulkanCommandSubmitterState, s.bIsWaiting = false →
      VulkanCommandSubmitter.wait s = (s, false)) ∧
    (∀ s : VulkanCommandSubmitterState,
      VulkanCommandSubmitter.wait (VulkanCommandSubmitter.wait s).1 =
        ((VulkanCommandSubmitter.wait s).1, false)) ∧
    (∀ batches : List (List VulkanCommandBufferRef), batches.isEmpty = true →
      VulkanCommandSubmitter.wait
          (VulkanCommandSubmitter.submitUpdate batches) =
        (VulkanCommandSubmitter.submitUpdate batches, false)) := by
  refine ⟨?_, ?_, ?_⟩
  · intro s h
    simp [VulkanCommandSubmitter.wait, h]
  · intro s
    by_cases h : s.bIsWaiting <;>
      simp [VulkanCommandSubmitter.wait, h]
  · intro batches h
    simp [VulkanCommandSubmitter.wait, VulkanCommandSubmitter.submitUpdate, h]

/-- Witness for C4 at concrete states `{bIsWaiting := false}`,
`{bIsWaiting := true}` and the empty batch list. -/
theorem wait_idempotent_no_block_witness :
    VulkanCommandSubmitter.wait ⟨false⟩ = (⟨false⟩, false) ∧
    VulkanCommandSubmitter.wait (VulkanCommandSubmitter.wait ⟨true⟩).1 =
      ((VulkanCommandSubmitter.wait ⟨true⟩).1, false) ∧
    VulkanCommandSubmitter.wait (VulkanCommandSubmitter.submitUpdate []) =
      (VulkanCommandSubmitter.submitUpdate [], false) :=
  ⟨wait_idempotent_no_block.1 ⟨false⟩ rfl,
    wait_idempotent_no_block.2.1 ⟨true⟩,
    wait_idempotent_no_block.2.2 [] rfl⟩

/-! ## C5 — pipeline cache load retry -/

/-- C5: during `loadPipelineCache`, if backend cache-object creation on the
handler's blob reports `VK_ERROR_UNKNOWN`, creation is retried exactly once
with empty cache data and the load is fatal iff that second attempt is not a
success; any other non-success result of the first attempt is fatal
immediately, with no second attempt. -/
theorem loadPipelineCache_retry_once (h : PipelineCacheHandler) (hash : Nat)
    (create : List Nat → VkResult) :
    (create (h.load (hash ^^^ g_MagicNumber)) = VkResult.errorUnknown →
      (VulkanRasterizingPipeline.loadPipelineCache (some h) hash create).attempts
          = [h.load (hash ^^^ g_MagicNumber), []] ∧
      ((VulkanRasterizingPipeline.loadPipelineCache (some h) hash create).fatal
          ↔ create [] ≠ VkResult.success)) ∧
    (create (h.load (hash ^^^ g_MagicNumber)) ≠ VkResult.errorUnknown →
      (VulkanRasterizingPipeline.loadPipelineCache (some h) hash create).attempts
          = [h.load (hash ^^^ g_MagicNumber)] ∧
      ((VulkanRasterizingPipeline.loadPipelineCache (some h) hash create).fatal
          ↔ create (h.load (hash ^^^ g_MagicNumber)) ≠ VkResult.success)) := by
  constructor
  · intro hu
    simp [VulkanRasterizingPipeline.loadPipelineCache, hu]
  · intro hu
    simp [VulkanRasterizingPipeline.loadPipelineCache, hu]

/-- Witness for C5: a handler whose blob makes creation report
`VK_ERROR_UNKNOWN` while creation on empty data succeeds — the load retries
with empty data and is not fatal. -/
theorem loadPipelineCache_retry_once_witness :
    (VulkanRasterizingPipeline.loadPipelineCache
        (some ⟨fun _ => [7]⟩) 0
        (fun d => if d = [7] then VkResult.errorUnknown else VkResult.success)).attempts
      = [[7], []] ∧
    ((VulkanRasterizingPipeline.loadPipelineCache
        (some ⟨fun _ => [7]⟩) 0
        (fun d => if d = [7] then VkResult.errorUnknown else VkResult.success)).fatal
      ↔ (if ([] : List Nat) = [7] then VkResult.errorUnknown else VkResult.success)
          ≠ VkResult.success) :=
  (loadPipelineCache_retry_once ⟨fun _ => [7]⟩ 0
    (fun d => if d = [7] then VkResult.errorUnknown else VkResult.success)).1
    (by decide)

/-! ## C6 — missing cache handler degrades gracefully -/

/-- C6: with a null cache handler, `loadPipelineCache` proceeds with empty
cache data (after a log note) and is not fatal whenever backend creation on
empty data succeeds, and `savePipelineCache` performs no persistence
operation. -/
theorem missing_cache_handler_not_fatal (hash : Nat)
    (create : List Nat → VkResult) (blob : List Nat) :
    (VulkanRasterizingPipeline.loadPipelineCache none hash create).attempts.head?
        = some [] ∧
    (create [] = VkResult.success →
      (VulkanRasterizingPipeline.loadPipelineCache none hash create).fatal
        = false) ∧
    VulkanRasterizingPipeline.savePipelineCache none hash blob = none := by
  refine ⟨?_, ?_, rfl⟩
  · by_cases hu : create [] = VkResult.errorUnknown <;>
      simp [VulkanRasterizingPipeline.loadPipelineCache, hu]
  · intro hs
    simp [VulkanRasterizingPipeline.loadPipelineCache, hs]

/-- Witness for C6 at a backend oracle that always succeeds. -/
theorem missing_cache_handler_not_fatal_witness :
    (VulkanRasterizingPipeline.loadPipelineCache none 3
        (fun _ => VkResult.success)).attempts.head? = some [] ∧
    ((fun _ : List Nat => VkResult.success) [] = VkResult.success →
      (VulkanRasterizingPipeline.loadPipelineCache none 3
          (fun _ => VkResult.success)).fatal = false) ∧
    VulkanRasterizingPipeline.savePipelineCache none 3 [1, 2] = none :=
  missing_cache_handler_not_fatal 3 (fun _ => VkResult.success) [1, 2]

/-! ## C9 — `copy` without a recorder -/

/-- C9 counterexample: when the OS synchronization event cannot be created
(`CreateEvent` returns null), `DX12Buffer::copy` has already submitted the
command list but logs an error and returns without any blocking fence wait —
contradicting the claim that on every path `copy` blocks the host on a fence
until device-side completion before returning (that its only failure mode is
a full host stall). -/
theorem copy_no_block_counterexample :
    DX12CopyStep.executeCommandLists ∈
      DX12Buffer.copySteps
        ⟨D3D12ResourceState.common, D3D12HeapType.defaultHeap⟩
        ⟨D3D12ResourceState.genericRead, D3D12HeapType.upload⟩ 4 0 0 false ∧
    DX12CopyStep.waitForSingleObject ∉
      DX12Buffer.copySteps
        ⟨D3D12ResourceState.common, D3D12HeapType.defaultHeap⟩
        ⟨D3D12ResourceState.genericRead, D3D12HeapType.upload⟩ 4 0 0 false ∧
    DX12CopyStep.logEventFailure ∈
      DX12Buffer.copySteps
        ⟨D3D12ResourceState.common, D3D12HeapType.defaultHeap⟩
        ⟨D3D12ResourceState.genericRead, D3D12HeapType.upload⟩ 4 0 0 false := by
  decide

/-- C9 (amended): `copy` without a caller-supplied recorder synchronously
builds a one-shot command list whose only copy command is the single
full-size `CopyBufferRegion`, submits it, and — provided the synchronization
event can be created — blocks the host on the fence before returning; if
event creation fails it logs an error and returns after submission without
blocking. -/
theorem copy_steps_blocking (dst src : DX12BufferDesc)
    (size srcOffset dstOffset : Nat) (eventOk : Bool) :
    ((DX12Buffer.copySteps dst src size srcOffset dstOffset eventOk).filter
        DX12CopyStep.isCopyRegion
      = [DX12CopyStep.copyBufferRegion dstOffset srcOffset size]) ∧
    (DX12CopyStep.executeCommandLists ∈
      DX12Buffer.copySteps dst src size srcOffset dstOffset eventOk) ∧
    (eventOk = true →
      DX12Buffer.copySteps dst src size srcOffset dstOffset eventOk =
        [DX12CopyStep.resetCommandAllocator, DX12CopyStep.resetCommandList] ++
        DX12Buffer.performCopySteps dst src size srcOffset dstOffset ++
        [DX12CopyStep.closeCommandList, DX12CopyStep.executeCommandLists,
          DX12CopyStep.createFence, DX12CopyStep.signalFence 1,
          DX12CopyStep.setEventOnCompletion 1, DX12CopyStep.waitForSingleObject,
          DX12CopyStep.closeEventHandle]) ∧
    (eventOk = false →
      DX12CopyStep.waitForSingleObject ∉
        DX12Buffer.copySteps dst src size srcOffset dstOffset eventOk) := by
  refine ⟨?_, ?_, ?_, ?_⟩
  · unfold DX12Buffer.copySteps DX12Buffer.performCopySteps
    cases eventOk <;> split_ifs <;>
      simp [List.filter_append, DX12CopyStep.isCopyRegion]
  · unfold DX12Buffer.copySteps
    cases eventOk <;> simp
  · intro h
    subst h
    simp [DX12Buffer.copySteps]
  · intro h
    subst h
    unfold DX12Buffer.copySteps DX12Buffer.performCopySteps
    split_ifs <;> simp_all

/-- Witness for C9 (amended) at a concrete copy with the event available. -/
theorem copy_steps_blocking_witness :
    DX12CopyStep.executeCommandLists ∈
      DX12Buffer.copySteps
        ⟨D3D12ResourceState.common, D3D12HeapType.defaultHeap⟩
        ⟨D3D12ResourceState.genericRead, D3D12HeapType.upload⟩ 4 0 0 true ∧
    DX12Buffer.copySteps
        ⟨D3D12ResourceState.common, D3D12HeapType.defaultHeap⟩
        ⟨D3D12ResourceState.genericRead, D3D12HeapType.upload⟩ 4 0 0 true =
      [DX12CopyStep.resetCommandAllocator, DX12CopyStep.resetCommandList] ++
      DX12Buffer.performCopySteps
        ⟨D3D12ResourceState.common, D3D12HeapType.defaultHeap⟩
        ⟨D3D12ResourceState.genericRead, D3D12HeapType.upload⟩ 4 0 0 ++
      [DX12CopyStep.closeCommandList, DX12CopyStep.executeCommandLists,
        DX12CopyStep.createFence, DX12CopyStep.signalFence 1,
        DX12CopyStep.setEventOnCompletion 1, DX12CopyStep.waitForSingleObject,
        DX12CopyStep.closeEventHandle] :=
  ⟨(copy_steps_blocking
      ⟨D3D12ResourceState.common, D3D12HeapType.defaultHeap⟩
      ⟨D3D12ResourceState.genericRead, D3D12HeapType.upload⟩ 4 0 0 true).2.1,
    (copy_steps_blocking
      ⟨D3D12ResourceState.common, D3D12HeapType.defaultHeap⟩
      ⟨D3D12ResourceState.genericRead, D3D12HeapType.upload⟩ 4 0 0 true).2.2.1
      rfl⟩

/-! ## C3 / C10 — submission descriptor construction -/

/-- One descriptor is produced per batch. -/
theorem submitLoop_length (batches : List (List VulkanCommandBufferRef)) :
    ∀ top, (submitLoop top batches).length = batches.length := by
  induction batches with
  | nil => intro top; rfl
  | cons b rest ih => intro top; simp [submitLoop, ih]

/-- `setLastSignal` never changes a descriptor's wait semaphores. -/
theorem setLastSignal_waitSemaphores (sems : List Nat) :
    ∀ (infos : List VkSubmitInfo) (i : Nat),
      ((setLastSignal sems infos).getD i default).waitSemaphores =
        (infos.getD i default).waitSemaphores := by
  intro infos
  induction infos with
  | nil => intro i; rfl
  | cons x rest ih =>
    intro i
    cases rest with
    | nil =>
      cases i with
      | zero => rfl
      | succ j => rfl
    | cons y rest2 =>
      cases i with
      | zero => rfl
      | succ j =>
        simpa [setLastSignal] using ih j

/-- `setLastSignal` sets the last descriptor's signal semaphores. -/
theorem setLastSignal_getLast (sems : List Nat) :
    ∀ (rest : List VkSubmitInfo) (x : VkSubmitInfo),
      ((setLastSignal sems (x :: rest)).getLast?).map (·.signalSemaphores) =
        some sems := by
  intro rest
  induction rest with
  | nil => intro x; rfl
  | cons y rest2 ih =>
    intro x
    obtain ⟨z, zs, hz⟩ :
        ∃ z zs, setLastSignal sems (y :: rest2) = z :: zs := by
      cases rest2 with
      | nil => exact ⟨_, _, rfl⟩
      | cons w ws => exact ⟨_, _, rfl⟩
    have hx : setLastSignal sems (x :: y :: rest2) =
        x :: setLastSignal sems (y :: rest2) := rfl
    rw [hx, hz, List.getLast?_cons_cons, ← hz]
    exact ih y

/-- The wait semaphores of descriptor `i + 1` are batch `i`'s signal
semaphores, for every non-empty batch `i + 1`, whatever seeds the outer wait
vector. -/
theorem submitLoop_chain (batches : List (List VulkanCommandBufferRef)) :
    ∀ (top : Option (List Nat × List Nat)) (i : Nat), i + 1 < batches.length →
      batches.getD (i + 1) [] ≠ [] →
      ((submitLoop top batches).getD (i + 1) default).waitSemaphores =
        (batches.getD i []).map (·.signalSemaphore) := by
  induction batches with
  | nil => intro top i h; simp at h
  | cons b rest ih =>
    intro top i h hne
    cases i with
    | zero =>
      cases rest with
      | nil => simp at h
      | cons c rest2 =>
        have hc : c ≠ [] := by simpa using hne
        cases c with
        | nil => exact absurd rfl hc
        | cons r rs => simp [submitLoop, submitBatchInfo]
    | succ j =>
      have h2 : j + 1 < rest.length := by simpa using h
      have hne2 : rest.getD (j + 1) [] ≠ [] := by simpa using hne
      simpa [submitLoop] using
        ih (some (b.map (·.signalSemaphore), b.map (·.stageFlags))) j h2 hne2

/-- The wait and signal semaphores of every descriptor produced by the batch
loop come from the batches' own recorders, as long as the seed of the outer
wait vector does. -/
theorem submitLoop_semaphores_subset (S : List Nat) :
    ∀ (batches : List (List VulkanCommandBufferRef))
      (top : Option (List Nat × List Nat)),
      (∀ sigs flags, top = some (sigs, flags) → sigs ⊆ S) →
      (∀ b ∈ batches, b.map (·.signalSemaphore) ⊆ S) →
      ∀ info ∈ submitLoop top batches,
        info.waitSemaphores ⊆ S ∧ info.signalSemaphores ⊆ S := by
  intro batches
  induction batches with
  | nil => intro top _ _ info hinfo; simp [submitLoop] at hinfo
  | cons b rest ih =>
    intro top htop hbat info hinfo
    simp only [submitLoop, List.mem_cons] at hinfo
    rcases hinfo with rfl | hinfo
    · constructor
      · simp only [submitBatchInfo]
        split
        · simp
        · cases top with
          | none => simp
          | some p => exact htop p.1 p.2 rfl
      · exact hbat b (by simp)
    · exact ih (some (b.map (·.signalSemaphore), b.map (·.stageFlags)))
        (by rintro sigs flags ⟨rfl, rfl⟩; exact hbat b (by simp))
        (fun b2 hb2 => hbat b2 (by simp [hb2]))
        info hinfo

/-- Every batch's signal semaphores are among `batchSignalSemaphores`. -/
theorem mem_batchSignalSemaphores (batches : List (List VulkanCommandBufferRef)) :
    ∀ b ∈ batches, b.map (·.signalSemaphore) ⊆ batchSignalSemaphores batches := by
  induction batches with
  | nil => intro b hb; simp at hb
  | cons c rest ih =>
    intro b hb
    rcases List.mem_cons.mp hb with rfl | hb
    · intro x hx
      simp only [batchSignalSemaphores, List.foldr_cons, List.mem_append]
      exact Or.inl hx
    · intro x hx
      simp only [batchSignalSemaphores, List.foldr_cons, List.mem_append]
      exact Or.inr (ih b hb hx)

/-- An in-range `getD` is a member of the list. -/
theorem getD_mem_of_lt {α : Type} (l : List α) (d : α) (i : Nat)
    (h : i < l.length) : l.getD i d ∈ l := by
  rw [List.getD_eq_getElem?_getD, List.getElem?_eq_getElem h]
  exact List.getElem_mem h

/-- C3 counterexample: for the batch list `[[recorder], []]` (no swapchain),
the claim fails: the descriptor of batch 1 lists no wait semaphores at all —
the wait fields are only assigned inside the per-recorder loop, which an
empty batch never enters — while batch 0's signal semaphores are `[5]`. -/
theorem submit_wait_chain_counterexample :
    ¬ waitChainHolds [[⟨0, 5, 7⟩], []] none := by
  intro h
  have h0 := h 0 (by decide)
  exact absurd h0 (by decide)

/-- C3 (amended): for every batch list whose batches are all non-empty, the
descriptor built for batch `i + 1` lists exactly batch `i`'s signal
semaphores as its wait semaphores; when a renderable swapchain is supplied,
the first batch's descriptor waits on the swapchain's image-available
semaphore and the last batch's descriptor signals the swapchain's
render-finished semaphore. -/
theorem submit_wait_chain (batches : List (List VulkanCommandBufferRef))
    (pSwapchain : Option VulkanSwapchain)
    (hne : ∀ b ∈ batches, b ≠ []) :
    waitChainHolds batches pSwapchain ∧
    (∀ s : VulkanSwapchain, pSwapchain = some s → s.renderable = true →
      ∀ b bs, batches = b :: bs →
        ((VulkanCommandSubmitter.submitInfos batches pSwapchain).getD 0
            default).waitSemaphores = [s.inFlightSemaphore] ∧
        ((VulkanCommandSubmitter.submitInfos batches pSwapchain).getLast?).map
            (·.signalSemaphores) = some [s.renderFinishedSemaphore]) := by
  constructor
  · intro i hi
    have hbne : batches.getD (i + 1) [] ≠ [] :=
      hne _ (getD_mem_of_lt batches [] (i + 1) hi)
    cases pSwapchain with
    | none =>
      exact submitLoop_chain batches _ i hi hbne
    | some s =>
      simp only [VulkanCommandSubmitter.submitInfos]
      split
      · rw [setLastSignal_waitSemaphores]
        exact submitLoop_chain batches _ i hi hbne
      · exact submitLoop_chain batches _ i hi hbne
  · rintro s rfl hrend b bs rfl
    have hb : b ≠ [] := hne b (by simp)
    have hseed : submitSeed (some s) =
        some ([s.inFlightSemaphore], [vkPipelineStageColorAttachmentOutputBit]) := by
      simp [submitSeed, hrend]
    have hshape : submitLoop (submitSeed (some s)) (b :: bs) =
        submitBatchInfo (submitSeed (some s)) b ::
          submitLoop (some (b.map (·.signalSemaphore), b.map (·.stageFlags))) bs := rfl
    have hcond : (!(submitLoop (submitSeed (some s)) (b :: bs)).isEmpty &&
        s.renderable) = true := by
      rw [hshape]
      simp [hrend]
    constructor
    · simp only [VulkanCommandSubmitter.submitInfos]
      rw [if_pos hcond, setLastSignal_waitSemaphores, hshape]
      cases b with
      | nil => exact absurd rfl hb
      | cons r rs => simp [submitBatchInfo, hseed]
    · simp only [VulkanCommandSubmitter.submitInfos]
      rw [if_pos hcond, hshape]
      exact setLastSignal_getLast [s.renderFinishedSemaphore] _ _

/-- Witness for C3 (amended) at two singleton batches and a renderable
swapchain. -/
theorem submit_wait_chain_witness :
    waitChainHolds [[⟨0, 5, 7⟩], [⟨1, 6, 8⟩]] (some ⟨true, 100, 200⟩) ∧
    (∀ s : VulkanSwapchain, (some ⟨true, 100, 200⟩ : Option VulkanSwapchain) = some s →
      s.renderable = true →
      ∀ (b : List VulkanCommandBufferRef) (bs : List (List VulkanCommandBufferRef)),
        ([[⟨0, 5, 7⟩], [⟨1, 6, 8⟩]] : List (List VulkanCommandBufferRef)) = b :: bs →
        ((VulkanCommandSubmitter.submitInfos [[⟨0, 5, 7⟩], [⟨1, 6, 8⟩]]
            (some ⟨true, 100, 200⟩)).getD 0 default).waitSemaphores =
          [s.inFlightSemaphore] ∧
        ((VulkanCommandSubmitter.submitInfos [[⟨0, 5, 7⟩], [⟨1, 6, 8⟩]]
            (some ⟨true, 100, 200⟩)).getLast?).map (·.signalSemaphores) =
          some [s.renderFinishedSemaphore]) :=
  submit_wait_chain [[⟨0, 5, 7⟩], [⟨1, 6, 8⟩]] (some ⟨true, 100, 200⟩)
    (by decide)

/-- C10: a `submit` with a null swapchain pointer builds exactly the
descriptors of the plain batch loop with no presentation coupling, and every
wait or signal semaphore of every descriptor is the signal semaphore of one
of the submitted recorders — no swapchain semaphore is consulted or added. -/
theorem submit_null_swapchain (batches : List (List VulkanCommandBufferRef)) :
    VulkanCommandSubmitter.submitInfos batches none = submitLoop none batches ∧
    ∀ info ∈ VulkanCommandSubmitter.submitInfos batches none,
      info.waitSemaphores ⊆ batchSignalSemaphores batches ∧
      info.signalSemaphores ⊆ batchSignalSemaphores batches := by
  refine ⟨rfl, ?_⟩
  intro info hinfo
  exact submitLoop_semaphores_subset (batchSignalSemaphores batches) batches
    none (by intro sigs flags h; cases h)
    (mem_batchSignalSemaphores batches) info hinfo

/-- Witness for C10 at a concrete two-batch list. -/
theorem submit_null_swapchain_witness :
    VulkanCommandSubmitter.submitInfos [[⟨0, 5, 7⟩], [⟨1, 6, 8⟩]] none =
      submitLoop none [[⟨0, 5, 7⟩], [⟨1, 6, 8⟩]] ∧
    ∀ info ∈ VulkanCommandSubmitter.submitInfos [[⟨0, 5, 7⟩], [⟨1, 6, 8⟩]] none,
      info.waitSemaphores ⊆ batchSignalSemaphores [[⟨0, 5, 7⟩], [⟨1, 6, 8⟩]] ∧
      info.signalSemaphores ⊆ batchSignalSemaphores [[⟨0, 5, 7⟩], [⟨1, 6, 8⟩]] :=
  submit_null_swapchain [[⟨0, 5, 7⟩], [⟨1, 6, 8⟩]]

/-! ## C2 — buffer write/read round trip -/

/-- Extracting the middle segment of a three-part concatenation. -/
theorem segment_extract (a m b : List Nat) :
    (((a ++ m ++ b).drop a.length).take m.length) = m := by
  rw [List.append_assoc, List.drop_left, List.take_left]

/-- `storeBytes` preserves the buffer length when the write fits. -/
theorem storeBytes_length (buf data : List Nat) (offset : Nat)
    (h : offset + data.length ≤ buf.length) :
    (storeBytes buf data offset).length = buf.length := by
  simp only [storeBytes, List.length_append, List.length_take, List.length_drop]
  omega

/-- Reading back the written segment of `storeBytes`. -/
theorem storeBytes_segment (buf data : List Nat) (offset : Nat)
    (h : offset + data.length ≤ buf.length) :
    ((storeBytes buf data offset).drop offset).take data.length = data := by
  have hlen : (buf.take offset).length = offset := by
    simp only [List.length_take]
    omega
  have := segment_extract (buf.take offset) data (buf.drop (offset + data.length))
  rw [hlen] at this
  simpa [storeBytes] using this

/-- `copyRegionBytes` preserves the destination length when the copy fits. -/
theorem copyRegionBytes_length (dst : List Nat) (dstOffset : Nat)
    (src : List Nat) (srcOffset size : Nat)
    (h1 : dstOffset + size ≤ dst.length) (h2 : srcOffset + size ≤ src.length) :
    (copyRegionBytes dst dstOffset src srcOffset size).length = dst.length := by
  simp only [copyRegionBytes, List.length_append, List.length_take,
    List.length_drop]
  omega

/-- A full-size copy between equal-sized buffers replaces the destination by
the source. -/
theorem copyRegionBytes_full (dst src : List Nat) (n : Nat)
    (hd : dst.length = n) (hs : src.length = n) :
    copyRegionBytes dst 0 src 0 n = src := by
  unfold copyRegionBytes
  rw [List.take_zero, List.drop_zero, Nat.zero_add,
    List.take_of_length_le (le_of_eq hs),
    List.drop_eq_nil_of_le (le_of_eq hd), List.nil_append, List.append_nil]

/-- Reading back the copied segment of `copyRegionBytes`. -/
theorem copyRegionBytes_segment (dst : List Nat) (dstOffset : Nat)
    (src : List Nat) (srcOffset size : Nat)
    (h1 : dstOffset + size ≤ dst.length) (h2 : srcOffset + size ≤ src.length) :
    ((copyRegionBytes dst dstOffset src srcOffset size).drop dstOffset).take size
      = (src.drop srcOffset).take size := by
  have hlen : (dst.take dstOffset).length = dstOffset := by
    simp only [List.length_take]
    omega
  have hmid : ((src.drop srcOffset).take size).length = size := by
    simp only [List.length_take, List.length_drop]
    omega
  have := segment_extract (dst.take dstOffset) ((src.drop srcOffset).take size)
    (dst.drop (dstOffset + size))
  rw [hlen, hmid] at this
  simpa [copyRegionBytes] using this

/-- C2: writing `N` bytes at offset `O` (with `O + N` within the buffer
size) and then reading the buffer back through `beginRead` returns the same
`N` bytes at offset `O`, whether the backing heap is host-visible (direct
map/copy/unmap) or not (persistent staging buffer plus backend copy). -/
theorem buffer_write_read_roundtrip (b : DX12Buffer) (data : List Nat)
    (offset : Nat) (hwf : b.wf) (hfit : offset + data.length ≤ b.size) :
    (((DX12Buffer.write b data offset).beginRead).2.drop offset).take
        data.length = data := by
  obtain ⟨hc, hw, hr⟩ := hwf
  unfold DX12Buffer.write
  by_cases hhost : b.heapType = D3D12HeapType.upload ∧
      b.currentState = D3D12ResourceState.genericRead
  · rw [if_pos hhost]
    have hfit' : offset + data.length ≤ b.contents.length := by rw [hc]; exact hfit
    have hclen : (storeBytes b.contents data offset).length = b.size := by
      rw [storeBytes_length b.contents data offset hfit', hc]
    unfold DX12Buffer.beginRead
    have htemp : (b.tempReadContents.getD (List.replicate b.size 0)).length
        = b.size := by
      cases htr : b.tempReadContents with
      | none => simp
      | some t => simpa using hr t htr
    simp only
    rw [copyRegionBytes_full _ _ b.size htemp hclen]
    exact storeBytes_segment b.contents data offset hfit'
  · rw [if_neg hhost]
    have htw : (b.tempWriteContents.getD (List.replicate b.size 0)).length
        = b.size := by
      cases htw : b.tempWriteContents with
      | none => simp
      | some t => simpa using hw t htw
    have hfitw : offset + data.length ≤
        (b.tempWriteContents.getD (List.replicate b.size 0)).length := by
      rw [htw]; exact hfit
    have hfitc : offset + data.length ≤ b.contents.length := by
      rw [hc]; exact hfit
    have hstlen : (storeBytes (b.tempWriteContents.getD (List.replicate b.size 0))
        data offset).length = b.size := by
      rw [storeBytes_length _ data offset hfitw, htw]
    have hclen : (copyRegionBytes b.contents offset
        (storeBytes (b.tempWriteContents.getD (List.replicate b.size 0)) data offset)
        offset data.length).length = b.size := by
      rw [copyRegionBytes_length _ _ _ _ _ hfitc (by rw [hstlen]; exact hfit), hc]
    unfold DX12Buffer.beginRead
    have htemp : (b.tempReadContents.getD (List.replicate b.size 0)).length
        = b.size := by
      cases htr : b.tempReadContents with
      | none => simp
      | some t => simpa using hr t htr
    simp only
    rw [copyRegionBytes_full _ _ b.size htemp hclen]
    rw [copyRegionBytes_segment _ _ _ _ _ hfitc (by rw [hstlen]; exact hfit)]
    exact storeBytes_segment _ data offset hfitw

/-- Witness for C2 at a concrete non-host-visible buffer (the staged path)
with 2 bytes written at offset 1. -/
theorem buffer_write_read_roundtrip_witness :
    (((DX12Buffer.write
          ⟨4, D3D12HeapType.defaultHeap, D3D12ResourceState.common,
            [9, 9, 9, 9], none, none⟩ [1, 2] 1).beginRead).2.drop 1).take 2
      = [1, 2] :=
  buffer_write_read_roundtrip
    ⟨4, D3D12HeapType.defaultHeap, D3D12ResourceState.common, [9, 9, 9, 9],
      none, none⟩ [1, 2] 1
    (by refine ⟨rfl, ?_, ?_⟩ <;> rintro t ⟨⟩) (by decide)

/-! ## C7 — descriptor binding merge -/

/-- Looking up the updated key maps the stored info through the update. -/
theorem findInfo_updateInfo_same (k : Nat × Nat)
    (f : DescriptorBindingInfo → DescriptorBindingInfo) :
    ∀ m : BindingMap,
      BindingMap.findInfo (BindingMap.updateInfo m k f) k =
        (BindingMap.findInfo m k).map f := by
  intro m
  induction m with
  | nil => rfl
  | cons e rest ih =>
    obtain ⟨k0, i0⟩ := e
    by_cases h : k0 = k
    · simp [BindingMap.updateInfo, BindingMap.findInfo, h]
    · simp [BindingMap.updateInfo, BindingMap.findInfo, h, ih]

/-- Updating one key leaves lookups of other keys unchanged. -/
theorem findInfo_updateInfo_ne (k k' : Nat × Nat)
    (f : DescriptorBindingInfo → DescriptorBindingInfo) (hne : k' ≠ k) :
    ∀ m : BindingMap,
      BindingMap.findInfo (BindingMap.updateInfo m k f) k' =
        BindingMap.findInfo m k' := by
  intro m
  induction m with
  | nil => rfl
  | cons e rest ih =>
    obtain ⟨k0, i0⟩ := e
    by_cases h : k0 = k
    · subst h
      simp [BindingMap.updateInfo, BindingMap.findInfo, Ne.symm hne]
    · by_cases h' : k0 = k'
      · simp [BindingMap.updateInfo, BindingMap.findInfo, h, h', hne]
      · simp [BindingMap.updateInfo, BindingMap.findInfo, h, h', ih]

/-- Lookup distributes over append, preferring the left map. -/
theorem findInfo_append (l : BindingMap) (k : Nat × Nat) :
    ∀ m : BindingMap,
      BindingMap.findInfo (m ++ l) k =
        match BindingMap.findInfo m k with
        | some i => some i
        | none => BindingMap.findInfo l k := by
  intro m
  induction m with
  | nil => rfl
  | cons e rest ih =>
    obtain ⟨k0, i0⟩ := e
    by_cases h : k0 = k
    · simp [BindingMap.findInfo, h]
    · simpa [BindingMap.findInfo, h] using ih

/-- `mergeResource` at the merged resource's own key: OR the mask into an
existing entry, or insert a fresh one recording the resource type. -/
theorem findInfo_mergeResource_same (t : Nat) (m : BindingMap)
    (r : ShaderResource) :
    BindingMap.findInfo (mergeResource t m r) (bindingKey r) =
      match BindingMap.findInfo m (bindingKey r) with
      | some i =>
          some { type := i.type, applicableShaders := i.applicableShaders ||| t }
      | none => some { type := r.type, applicableShaders := t } := by
  unfold mergeResource
  by_cases hc : BindingMap.containsKey m (bindingKey r)
  · rw [if_pos hc, findInfo_updateInfo_same]
    unfold BindingMap.containsKey at hc
    cases hm : BindingMap.findInfo m (bindingKey r) with
    | none => rw [hm] at hc; simp at hc
    | some i => simp
  · rw [if_neg hc, findInfo_append]
    unfold BindingMap.containsKey at hc
    cases hm : BindingMap.findInfo m (bindingKey r) with
    | none => simp [BindingMap.findInfo]
    | some i => rw [hm] at hc; simp at hc

/-- `mergeResource` leaves all other keys unchanged. -/
theorem findInfo_mergeResource_ne (t : Nat) (m : BindingMap)
    (r : ShaderResource) (k : Nat × Nat) (hne : bindingKey r ≠ k) :
    BindingMap.findInfo (mergeResource t m r) k = BindingMap.findInfo m k := by
  unfold mergeResource
  by_cases hc : BindingMap.containsKey m (bindingKey r)
  · rw [if_pos hc, findInfo_updateInfo_ne _ _ _ (Ne.symm hne)]
  · rw [if_neg hc, findInfo_append]
    cases hm : BindingMap.findInfo m k with
    | none => simp [BindingMap.findInfo, hne]
    | some i => simp

/-- The effect of a whole stage's resource-merge loop on one key: if the
stage declares the key, the stage mask is ORed in exactly once (the resource
type of a fresh entry comes from the stage's first declaration); otherwise
the entry is untouched. -/
theorem findInfo_mergeResources (rs : List ShaderResource) :
    ∀ (m : BindingMap) (t : Nat) (k : Nat × Nat),
      BindingMap.findInfo (mergeResources m rs t) k =
        match BindingMap.findInfo m k,
            rs.find? (fun r => decide (bindingKey r = k)) with
        | some i, some _ =>
            some { type := i.type, applicableShaders := i.applicableShaders ||| t }
        | some i, none => some i
        | none, some r₀ => some { type := r₀.type, applicableShaders := t }
        | none, none => none := by
  induction rs with
  | nil =>
    intro m t k
    cases hm : BindingMap.findInfo m k <;> simp [mergeResources, hm]
  | cons r rs ih =>
    intro m t k
    have hstep : mergeResources m (r :: rs) t =
        mergeResources (mergeResource t m r) rs t := rfl
    rw [hstep]
    by_cases hk : bindingKey r = k
    · subst hk
      rw [ih]
    
      rw [findInfo_mergeResource_same]
      cases hm : BindingMap.findInfo m (bindingKey r) <;>
        cases hf : rs.find? (fun r2 => decide (bindingKey r2 = bindingKey r)) <;>
          simp [List.find?_cons, hm, hf, Nat.or_assoc, Nat.or_self]
    · rw [ih, findInfo_mergeResource_ne t m r k hk]
      have hfind : (r :: rs).find? (fun r2 => decide (bindingKey r2 = k)) =
          rs.find? (fun r2 => decide (bindingKey r2 = k)) := by
        simp [List.find?_cons, hk]
      rw [hfind]

/-- `updateInfo` keeps the key sequence. -/
theorem keys_updateInfo (k : Nat × Nat)
    (f : DescriptorBindingInfo → DescriptorBindingInfo) :
    ∀ m : BindingMap, BindingMap.keys (BindingMap.updateInfo m k f) =
      BindingMap.keys m := by
  intro m
  induction m with
  | nil => rfl
  | cons e rest ih =>
    obtain ⟨k0, i0⟩ := e
    by_cases h : k0 = k
    · simp [BindingMap.updateInfo, BindingMap.keys, h]
    · simp [BindingMap.updateInfo, BindingMap.keys, h]
      simpa [BindingMap.keys] using ih

/-- A key is absent from the key sequence iff its lookup fails. -/
theorem findInfo_eq_none_iff (k : Nat × Nat) :
    ∀ m : BindingMap,
      BindingMap.findInfo m k = none ↔ k ∉ BindingMap.keys m := by
  intro m
  induction m with
  | nil => simp [BindingMap.findInfo, BindingMap.keys]
  | cons e rest ih =>
    obtain ⟨k0, i0⟩ := e
    have hkeys : BindingMap.keys ((k0, i0) :: rest) =
        k0 :: BindingMap.keys rest := rfl
    rw [hkeys]
    by_cases h : k0 = k
    · subst h
      simp [BindingMap.findInfo]
    · have hstep : BindingMap.findInfo ((k0, i0) :: rest) k =
          BindingMap.findInfo rest k := by
        simp [BindingMap.findInfo, h]
      rw [hstep, ih, List.mem_cons]
      constructor
      · intro hk hor
        rcases hor with hor | hor
        · exact h hor.symm
        · exact hk hor
      · intro hk hmem
        exact hk (Or.inr hmem)

/-- `mergeResource` preserves distinctness of the keys. -/
theorem keys_nodup_mergeResource (t : Nat) (m : BindingMap)
    (r : ShaderResource) (hnd : (BindingMap.keys m).Nodup) :
    (BindingMap.keys (mergeResource t m r)).Nodup := by
  unfold mergeResource
  by_cases hc : BindingMap.containsKey m (bindingKey r)
  · rw [if_pos hc, keys_updateInfo]
    exact hnd
  · rw [if_neg hc]
    have habs : bindingKey r ∉ BindingMap.keys m := by
      rw [← findInfo_eq_none_iff]
      unfold BindingMap.containsKey at hc
      cases hm : BindingMap.findInfo m (bindingKey r) with
      | none => rfl
      | some i => rw [hm] at hc; simp at hc
    have hkeys : BindingMap.keys
        (m ++ [(bindingKey r,
          { type := r.type, applicableShaders := t })]) =
        BindingMap.keys m ++ [bindingKey r] := by
      simp [BindingMap.keys]
    rw [hkeys]
    simpa [List.nodup_append] using ⟨hnd, fun h => habs h⟩

/-- The whole merge loop preserves distinctness of the keys. -/
theorem keys_nodup_mergeResources (rs : List ShaderResource) :
    ∀ (m : BindingMap) (t : Nat), (BindingMap.keys m).Nodup →
      (BindingMap.keys (mergeResources m rs t)).Nodup := by
  induction rs with
  | nil => intro m t h; exact h
  | cons r rs ih =>
    intro m t h
    exact ih (mergeResource t m r) t (keys_nodup_mergeResource t m r h)

/-- An absent key has no entry. -/
theorem countKey_eq_zero (k : Nat × Nat) :
    ∀ m : BindingMap, k ∉ BindingMap.keys m →
      BindingMap.countKey m k = 0 := by
  intro m
  induction m with
  | nil => intro _; rfl
  | cons e rest ih =>
    obtain ⟨k0, i0⟩ := e
    intro h
    have hkeys : BindingMap.keys ((k0, i0) :: rest) =
        k0 :: BindingMap.keys rest := rfl
    rw [hkeys, List.mem_cons] at h
    push_neg at h
    have h1 : ¬ k0 = k := fun hh => h.1 hh.symm
    have h2 := ih h.2
    simp only [BindingMap.countKey, List.countP_cons] at h2 ⊢
    simp [h1, h2]

/-- With distinct keys, a present key has exactly one entry. -/
theorem countKey_eq_one (k : Nat × Nat) :
    ∀ (m : BindingMap) (i : DescriptorBindingInfo),
      (BindingMap.keys m).Nodup → BindingMap.findInfo m k = some i →
      BindingMap.countKey m k = 1 := by
  intro m
  induction m with
  | nil => intro i _ h; cases h
  | cons e rest ih =>
    obtain ⟨k0, i0⟩ := e
    intro i hnd hfind
    simp only [BindingMap.keys, List.map_cons, List.nodup_cons] at hnd
    by_cases h : k0 = k
    · subst h
      have hrest : BindingMap.countKey rest k0 = 0 :=
        countKey_eq_zero k0 rest (by simpa [BindingMap.keys] using hnd.1)
      simp [BindingMap.countKey, List.countP_cons, hrest,
        BindingMap.countKey] at hrest ⊢
      exact hrest
    · have hfind' : BindingMap.findInfo rest k = some i := by
        simpa [BindingMap.findInfo, h] using hfind
      have := ih i (by simpa [BindingMap.keys] using hnd.2) hfind'
      simpa [BindingMap.countKey, List.countP_cons, h] using this

/-- The binding map built by `GetShaderBindings` is the resource merge,
whatever the stage. -/
theorem GetShaderBindings_bindingMap (scheme : InputElementScheme)
    (shader : ShaderData) (s : PipelineCtorState) (t : Nat) :
    (GetShaderBindings scheme shader s t).bindingMap =
      mergeResources s.bindingMap shader.resources t := by
  unfold GetShaderBindings
  split <;> rfl

/-- C7: when the vertex and fragment stages both declare a `(set, binding)`
pair, the merged binding map of the pipeline constructor holds exactly one
entry for the pair; its stage-applicability mask is the OR of both declaring
stages' masks, and its resource type is the one recorded on first insertion
(the vertex stage's first declaration). -/
theorem descriptor_merge_or (scheme : InputElementScheme)
    (vertexShader fragmentShader : ShaderData) (k : Nat × Nat)
    (hv : vertexShader.valid = true) (hf : fragmentShader.valid = true)
    (hkv : (vertexShader.resources.find?
      (fun r => decide (bindingKey r = k))).isSome = true)
    (hkf : (fragmentShader.resources.find?
      (fun r => decide (bindingKey r = k))).isSome = true) :
    BindingMap.countKey
        (VulkanRasterizingPipeline.ctorState scheme vertexShader
          fragmentShader).bindingMap k = 1 ∧
    BindingMap.findInfo
        (VulkanRasterizingPipeline.ctorState scheme vertexShader
          fragmentShader).bindingMap k =
      (vertexShader.resources.find? (fun r => decide (bindingKey r = k))).map
        (fun r₀ =>
          { type := r₀.type,
            applicableShaders := shaderTypeVertex ||| shaderTypeFragment }) := by
  have hmap : (VulkanRasterizingPipeline.ctorState scheme vertexShader
      fragmentShader).bindingMap =
      mergeResources
        (mergeResources [] vertexShader.resources shaderTypeVertex)
        fragmentShader.resources shaderTypeFragment := by
    simp only [VulkanRasterizingPipeline.ctorState, hv, hf, if_true]
    rw [GetShaderBindings_bindingMap, GetShaderBindings_bindingMap]
  cases hfv : vertexShader.resources.find? (fun r => decide (bindingKey r = k)) with
  | none => rw [hfv] at hkv; simp at hkv
  | some r₀ =>
    cases hff : fragmentShader.resources.find?
        (fun r => decide (bindingKey r = k)) with
    | none => rw [hff] at hkf; simp at hkf
    | some r₁ =>
      have hfind : BindingMap.findInfo
          (VulkanRasterizingPipeline.ctorState scheme vertexShader
            fragmentShader).bindingMap k =
          some { type := r₀.type,
                 applicableShaders := shaderTypeVertex ||| shaderTypeFragment } := by
        rw [hmap, findInfo_mergeResources, findInfo_mergeResources]
        simp [BindingMap.findInfo, hfv, hff]
      refine ⟨?_, ?_⟩
      · have hnd : (BindingMap.keys
            (VulkanRasterizingPipeline.ctorState scheme vertexShader
              fragmentShader).bindingMap).Nodup := by
          rw [hmap]
          exact keys_nodup_mergeResources _ _ _
            (keys_nodup_mergeResources _ _ _ (by simp [BindingMap.keys]))
        exact countKey_eq_one k _ _ hnd hfind
      · rw [hfind]
        simp [hfv]

/-- Witness for C7: two one-resource stages declaring the same
`(set, binding) = (3, 0)` pair. -/
theorem descriptor_merge_or_witness :
    BindingMap.countKey
        (VulkanRasterizingPipeline.ctorState
          ⟨fun _ => true, 50, 51, 52, 53, 0, 12, 24, 36, 40⟩
          ⟨true, [⟨0, 3, 2⟩], []⟩ ⟨true, [⟨0, 3, 2⟩], []⟩).bindingMap (3, 0)
      = 1 ∧
    BindingMap.findInfo
        (VulkanRasterizingPipeline.ctorState
          ⟨fun _ => true, 50, 51, 52, 53, 0, 12, 24, 36, 40⟩
          ⟨true, [⟨0, 3, 2⟩], []⟩ ⟨true, [⟨0, 3, 2⟩], []⟩).bindingMap (3, 0) =
      (([⟨0, 3, 2⟩] : List ShaderResource).find?
          (fun r => decide (bindingKey r = (3, 0)))).map
        (fun r₀ =>
          { type := r₀.type,
            applicableShaders := shaderTypeVertex ||| shaderTypeFragment }) :=
  descriptor_merge_or
    ⟨fun _ => true, 50, 51, 52, 53, 0, 12, 24, 36, 40⟩
    ⟨true, [⟨0, 3, 2⟩], []⟩ ⟨true, [⟨0, 3, 2⟩], []⟩ (3, 0)
    rfl rfl (by decide) (by decide)


/-! ## C1 — one pipeline variant per vertex-layout hash -/

/-- `m_Pipelines.contains(hash)` fails exactly for unseen hashes. -/
theorem variant_lookup_eq_none_iff (h : Nat) :
    ∀ m : List (Nat × PipelineStorage),
      m.lookup h = none ↔ h ∉ variantKeys m := by
  intro m
  induction m with
  | nil => simp [List.lookup, variantKeys]
  | cons e rest ih =>
    obtain ⟨k, st⟩ := e
    have hkeys : variantKeys ((k, st) :: rest) = k :: variantKeys rest := rfl
    rw [hkeys]
    by_cases hk : k = h
    · subst hk
      simp [List.lookup]
    · have hbeq : (h == k) = false := by
        rw [beq_eq_false_iff_ne]
        exact fun hh => hk hh.symm
      have hstep : ((k, st) :: rest).lookup h = rest.lookup h := by
        simp [List.lookup, hbeq]
      rw [hstep, ih, List.mem_cons]
      constructor
      · intro ha hor
        rcases hor with hor | hor
        · exact hk hor.symm
        · exact ha hor
      · intro ha hmem
        exact ha (Or.inr hmem)

/-- A re-request of an already-seen hash returns the stored variant and
leaves the whole state — the variant map and the compile counter —
unchanged. -/
theorem getPipeline_hit (po : PipelineCtorState) (s : RasterizingPipelineState)
    (v : VertexSpecification) (storage : PipelineStorage)
    (h : s.pipelines.lookup v.hash = some storage) :
    VulkanRasterizingPipeline.getPipeline po s v = (s, storage) := by
  unfold VulkanRasterizingPipeline.getPipeline
  simp [h]

/-- An unseen hash compiles one variant with the next fresh handle and
stores it under the hash. -/
theorem getPipeline_miss (po : PipelineCtorState) (s : RasterizingPipelineState)
    (v : VertexSpecification) (h : s.pipelines.lookup v.hash = none) :
    VulkanRasterizingPipeline.getPipeline po s v =
      ({ pipelines := s.pipelines ++
          [(v.hash, compileVariant po v s.nextPipelineId)]
         nextPipelineId := s.nextPipelineId + 1 },
        compileVariant po v s.nextPipelineId) := by
  unfold VulkanRasterizingPipeline.getPipeline
  simp [h]

/-- Invariant of a request run: the variant-map keys stay distinct, the
compile counter equals the number of stored variants, and the keys are
exactly the initial keys plus the requested hashes. -/
theorem runRequests_invariant (po : PipelineCtorState)
    (reqs : List VertexSpecification) :
    ∀ s : RasterizingPipelineState,
      (variantKeys s.pipelines).Nodup →
      s.nextPipelineId = s.pipelines.length →
      (variantKeys (VulkanRasterizingPipeline.runRequests po s reqs).pipelines).Nodup ∧
      (VulkanRasterizingPipeline.runRequests po s reqs).nextPipelineId =
        (VulkanRasterizingPipeline.runRequests po s reqs).pipelines.length ∧
      ∀ h, h ∈ variantKeys
          (VulkanRasterizingPipeline.runRequests po s reqs).pipelines ↔
        h ∈ variantKeys s.pipelines ∨ h ∈ reqs.map (·.hash) := by
  induction reqs with
  | nil =>
    intro s hnd hid
    refine ⟨hnd, hid, ?_⟩
    intro h
    simp [VulkanRasterizingPipeline.runRequests]
  | cons v reqs ih =>
    intro s hnd hid
    have hstep : VulkanRasterizingPipeline.runRequests po s (v :: reqs) =
        VulkanRasterizingPipeline.runRequests po
          (VulkanRasterizingPipeline.getPipeline po s v).1 reqs := rfl
    cases hl : s.pipelines.lookup v.hash with
    | some st =>
      have hmem : v.hash ∈ variantKeys s.pipelines := by
        by_contra hmem
        rw [← variant_lookup_eq_none_iff] at hmem
        rw [hl] at hmem
        cases hmem
      rw [hstep, getPipeline_hit po s v st hl]
      obtain ⟨h1, h2, h3⟩ := ih s hnd hid
      refine ⟨h1, h2, ?_⟩
      intro h
      rw [h3 h, List.map_cons, List.mem_cons]
      constructor
      · rintro (hk | hk)
        · exact Or.inl hk
        · exact Or.inr (Or.inr hk)
      · rintro (hk | hk | hk)
        · exact Or.inl hk
        · subst hk
          exact Or.inl hmem
        · exact Or.inr hk
    | none =>
      have hnotmem : v.hash ∉ variantKeys s.pipelines :=
        (variant_lookup_eq_none_iff v.hash s.pipelines).mp hl
      rw [hstep, getPipeline_miss po s v hl]
      have hkeys : variantKeys (s.pipelines ++
          [(v.hash, compileVariant po v s.nextPipelineId)]) =
          variantKeys s.pipelines ++ [v.hash] := by
        simp [variantKeys]
      have hnd' : (variantKeys (s.pipelines ++
          [(v.hash, compileVariant po v s.nextPipelineId)])).Nodup := by
        rw [hkeys]
        simpa [List.nodup_append] using ⟨hnd, fun hmem => hnotmem hmem⟩
      obtain ⟨h1, h2, h3⟩ := ih
        { pipelines := s.pipelines ++
            [(v.hash, compileVariant po v s.nextPipelineId)]
          nextPipelineId := s.nextPipelineId + 1 }
        hnd' (by simp [hid])
      refine ⟨h1, h2, ?_⟩
      intro h
      rw [h3 h]
      have hrw : variantKeys
          ({ pipelines := s.pipelines ++
              [(v.hash, compileVariant po v s.nextPipelineId)]
             nextPipelineId := s.nextPipelineId + 1 } :
            RasterizingPipelineState).pipelines =
          variantKeys s.pipelines ++ [v.hash] := hkeys
      rw [hrw, List.mem_append, List.mem_singleton, List.map_cons,
        List.mem_cons]
      constructor
      · rintro ((hk | hk) | hk)
        · exact Or.inl hk
        · exact Or.inr (Or.inl hk)
        · exact Or.inr (Or.inr hk)
      · rintro (hk | hk | hk)
        · exact Or.inl (Or.inl hk)
        · exact Or.inl (Or.inr hk)
        · exact Or.inr hk

/-- With distinct keys, a stored hash has exactly one entry and an unseen
hash none. -/
theorem pipelineCountKey_of_nodup (h : Nat) :
    ∀ m : List (Nat × PipelineStorage), (variantKeys m).Nodup →
      pipelineCountKey m h = if h ∈ variantKeys m then 1 else 0 := by
  intro m
  induction m with
  | nil => intro _; rfl
  | cons e rest ih =>
    obtain ⟨k, st⟩ := e
    intro hnd
    have hkeys : variantKeys ((k, st) :: rest) = k :: variantKeys rest := rfl
    rw [hkeys] at hnd ⊢
    rw [List.nodup_cons] at hnd
    have hrest := ih hnd.2
    by_cases hk : k = h
    · subst hk
      have h0 : pipelineCountKey rest k = 0 := by
        rw [hrest, if_neg hnd.1]
      simp only [pipelineCountKey, List.countP_cons] at h0 ⊢
      rw [h0]
      simp [List.mem_cons]
    · have hhk : ¬ h = k := fun hh => hk hh.symm
      simp only [pipelineCountKey, List.countP_cons] at hrest ⊢
      rw [hrest]
      simp [List.mem_cons, hk, hhk]

/-- C1: `getPipeline` creates at most one backend pipeline variant per
vertex-layout hash.  A re-request of an already-seen hash returns the stored
variant with the state (hence the compile counter) unchanged; after any
sequence of requests starting from a fresh pipeline object, the variant map
holds exactly one entry per requested hash and the number of compilations
performed equals the number of distinct requested hashes. -/
theorem pipeline_variant_per_hash :
    (∀ (po : PipelineCtorState) (s : RasterizingPipelineState)
        (v : VertexSpecification) (storage : PipelineStorage),
      s.pipelines.lookup v.hash = some storage →
      VulkanRasterizingPipeline.getPipeline po s v = (s, storage)) ∧
    (∀ (po : PipelineCtorState) (reqs : List VertexSpecification) (h : Nat),
      pipelineCountKey
          (VulkanRasterizingPipeline.runRequests po
            RasterizingPipelineState.initial reqs).pipelines h =
        if h ∈ reqs.map (·.hash) then 1 else 0) ∧
    (∀ (po : PipelineCtorState) (reqs : List VertexSpecification),
      (VulkanRasterizingPipeline.runRequests po
          RasterizingPipelineState.initial reqs).nextPipelineId =
        (reqs.map (·.hash)).dedup.length) := by
  have hinit : ∀ (po : PipelineCtorState) (reqs : List VertexSpecification),
      (variantKeys (VulkanRasterizingPipeline.runRequests po
        RasterizingPipelineState.initial reqs).pipelines).Nodup ∧
      (VulkanRasterizingPipeline.runRequests po
          RasterizingPipelineState.initial reqs).nextPipelineId =
        (VulkanRasterizingPipeline.runRequests po
          RasterizingPipelineState.initial reqs).pipelines.length ∧
      ∀ h, h ∈ variantKeys (VulkanRasterizingPipeline.runRequests po
          RasterizingPipelineState.initial reqs).pipelines ↔
        h ∈ reqs.map (·.hash) := by
    intro po reqs
    obtain ⟨h1, h2, h3⟩ := runRequests_invariant po reqs
      RasterizingPipelineState.initial (by simp [RasterizingPipelineState.initial, variantKeys]) rfl
    refine ⟨h1, h2, ?_⟩
    intro h
    rw [h3 h]
    simp [RasterizingPipelineState.initial, variantKeys]
  refine ⟨getPipeline_hit, ?_, ?_⟩
  · intro po reqs h
    obtain ⟨h1, _, h3⟩ := hinit po reqs
    rw [pipelineCountKey_of_nodup h _ h1]
    by_cases hmem : h ∈ reqs.map (·.hash)
    · rw [if_pos ((h3 h).mpr hmem), if_pos hmem]
    · rw [if_neg (fun hc => hmem ((h3 h).mp hc)), if_neg hmem]
  · intro po reqs
    obtain ⟨h1, h2, h3⟩ := hinit po reqs
    have hperm : List.Perm
        (variantKeys (VulkanRasterizingPipeline.runRequests po
          RasterizingPipelineState.initial reqs).pipelines)
        ((reqs.map (·.hash)).dedup) := by
      rw [List.perm_ext_iff_of_nodup h1 (List.nodup_dedup _)]
      intro a
      rw [h3 a, List.mem_dedup]
    have hlen := hperm.length_eq
    rw [h2]
    rw [show (VulkanRasterizingPipeline.runRequests po
        RasterizingPipelineState.initial reqs).pipelines.length =
        (variantKeys (VulkanRasterizingPipeline.runRequests po
          RasterizingPipelineState.initial reqs).pipelines).length by
      simp [variantKeys]]
    exact hlen

/-- Witness for C1: a re-request of hash `5` on a one-entry map returns the
stored variant unchanged, and a three-request run with two distinct hashes
stores one entry per hash and compiles twice. -/
theorem pipeline_variant_per_hash_witness :
    VulkanRasterizingPipeline.getPipeline
        ⟨[], [], []⟩
        ⟨[(5, ⟨0, [], []⟩)], 1⟩
        ⟨5, fun _ => false, fun _ => 0, fun _ => 0, fun _ => ComponentDataType.float, 0⟩
        = (⟨[(5, ⟨0, [], []⟩)], 1⟩, ⟨0, [], []⟩) ∧
    pipelineCountKey
        (VulkanRasterizingPipeline.runRequests ⟨[], [], []⟩
          RasterizingPipelineState.initial
          [⟨5, fun _ => false, fun _ => 0, fun _ => 0, fun _ => ComponentDataType.float, 0⟩,
            ⟨6, fun _ => false, fun _ => 0, fun _ => 0, fun _ => ComponentDataType.float, 0⟩,
            ⟨5, fun _ => false, fun _ => 0, fun _ => 0, fun _ => ComponentDataType.float, 0⟩]).pipelines 5 = 1 ∧
    (VulkanRasterizingPipeline.runRequests ⟨[], [], []⟩
        RasterizingPipelineState.initial
        [⟨5, fun _ => false, fun _ => 0, fun _ => 0, fun _ => ComponentDataType.float, 0⟩,
          ⟨6, fun _ => false, fun _ => 0, fun _ => 0, fun _ => ComponentDataType.float, 0⟩,
          ⟨5, fun _ => false, fun _ => 0, fun _ => 0, fun _ => ComponentDataType.float, 0⟩]).nextPipelineId = 2 := by
  refine ⟨?_, ?_, ?_⟩
  · exact pipeline_variant_per_hash.1 ⟨[], [], []⟩ ⟨[(5, ⟨0, [], []⟩)], 1⟩
      ⟨5, fun _ => false, fun _ => 0, fun _ => 0, fun _ => ComponentDataType.float, 0⟩
      ⟨0, [], []⟩ rfl
  · have := pipeline_variant_per_hash.2.1 ⟨[], [], []⟩
      [⟨5, fun _ => false, fun _ => 0, fun _ => 0, fun _ => ComponentDataType.float, 0⟩,
        ⟨6, fun _ => false, fun _ => 0, fun _ => 0, fun _ => ComponentDataType.float, 0⟩,
        ⟨5, fun _ => false, fun _ => 0, fun _ => 0, fun _ => ComponentDataType.float, 0⟩] 5
    rw [this]
    rfl
  · have := pipeline_variant_per_hash.2.2 ⟨[], [], []⟩
      [⟨5, fun _ => false, fun _ => 0, fun _ => 0, fun _ => ComponentDataType.float, 0⟩,
        ⟨6, fun _ => false, fun _ => 0, fun _ => 0, fun _ => ComponentDataType.float, 0⟩,
        ⟨5, fun _ => false, fun _ => 0, fun _ => 0, fun _ => ComponentDataType.float, 0⟩]
    rw [this]
    rfl

/-! ## C8 — vertex-layout resolution and input bindings -/

/-- The fragment stage contributes nothing to the vertex-input vectors. -/
theorem GetShaderBindings_fragment_inputs (scheme : InputElementScheme)
    (shader : ShaderData) (s : PipelineCtorState) :
    (GetShaderBindings scheme shader s shaderTypeFragment).vertexInputBindings =
        s.vertexInputBindings ∧
    (GetShaderBindings scheme shader s shaderTypeFragment).vertexInputAttributes =
        s.vertexInputAttributes := by
  unfold GetShaderBindings
  rw [if_neg (by decide)]
  exact ⟨rfl, rfl⟩

/-- The vertex stage appends its input attributes and, exactly when one of
them is an instance element, the per-instance input binding. -/
theorem GetShaderBindings_vertex_inputs (scheme : InputElementScheme)
    (shader : ShaderData) (s : PipelineCtorState) :
    (GetShaderBindings scheme shader s shaderTypeVertex).vertexInputBindings =
      (if shader.inputAttributes.any
          (fun ia => !scheme.isVertexElement ia.location) then
        s.vertexInputBindings ++
          [{ binding := 1
             inputRate := VkVertexInputRate.instance_
             stride := scheme.instanceEntrySize }]
      else s.vertexInputBindings) ∧
    (GetShaderBindings scheme shader s shaderTypeVertex).vertexInputAttributes =
      s.vertexInputAttributes ++
        shader.inputAttributes.map
          (fun ia => shaderInputAttribute scheme ia.location) := by
  unfold GetShaderBindings
  rw [if_pos (by decide)]
  constructor
  · by_cases h : shader.inputAttributes.any
        (fun ia => !scheme.isVertexElement ia.location)
    · simp [h]
    · simp [h]
  · rfl

/-- C8: compiling a variant for a requested vertex layout resolves the
non-instance attributes' offsets and formats from the layout, sorts the
attribute list by offset, appends the per-vertex input binding (rate
per-vertex, stride = layout size) exactly when at least one non-instance
attribute is populated from the layout, and the constructor emits the
per-instance input binding (rate per-instance, stride = instance-record
size) exactly when the vertex shader declares at least one instance
attribute. -/
theorem compile_variant_inputs (scheme : InputElementScheme)
    (vertexShader fragmentShader : ShaderData) (v : VertexSpecification)
    (id : Nat) (hv : vertexShader.valid = true) :
    ((compileVariant
        (VulkanRasterizingPipeline.ctorState scheme vertexShader fragmentShader)
        v id).inputAttributeDescriptions.Pairwise
      (fun a b => a.offset ≤ b.offset)) ∧
    List.Perm
      (compileVariant
        (VulkanRasterizingPipeline.ctorState scheme vertexShader fragmentShader)
        v id).inputAttributeDescriptions
      ((VulkanRasterizingPipeline.ctorState scheme vertexShader
          fragmentShader).vertexInputAttributes.map (resolveAttribute v)) ∧
    (∀ a ∈ (VulkanRasterizingPipeline.ctorState scheme vertexShader
        fragmentShader).vertexInputAttributes,
      a.binding ≠ 1 → v.isAvailable a.location = true →
      (resolveAttribute v a).offset = v.offsetOf a.location ∧
      (resolveAttribute v a).format =
        GetElementFormat (v.componentCountOf a.location)
          (v.componentDataTypeOf a.location)) ∧
    ((compileVariant
        (VulkanRasterizingPipeline.ctorState scheme vertexShader fragmentShader)
        v id).inputBindingDescriptions =
      (VulkanRasterizingPipeline.ctorState scheme vertexShader
          fragmentShader).vertexInputBindings ++
        (if hasVertexData
            (VulkanRasterizingPipeline.ctorState scheme vertexShader
              fragmentShader) v then
          [{ binding := 0, inputRate := VkVertexInputRate.vertex,
             stride := v.size }]
        else [])) ∧
    ((VulkanRasterizingPipeline.ctorState scheme vertexShader
        fragmentShader).vertexInputBindings =
      if vertexShader.inputAttributes.any
          (fun ia => !scheme.isVertexElement ia.location) then
        [{ binding := 1
           inputRate := VkVertexInputRate.instance_
           stride := scheme.instanceEntrySize }]
      else []) := by
  refine ⟨?_, ?_, ?_, ?_, ?_⟩
  · simp only [compileVariant]
    refine List.Pairwise.imp ?_
      (List.sorted_mergeSort ?_ ?_
        ((VulkanRasterizingPipeline.ctorState scheme vertexShader
          fragmentShader).vertexInputAttributes.map (resolveAttribute v)))
    · intro a b h
      simpa using h
    · intro a b c h1 h2
      simp only [decide_eq_true_eq] at h1 h2 ⊢
      exact Nat.le_trans h1 h2
    · intro a b
      simpa using Nat.le_total a.offset b.offset
  · simp only [compileVariant]
    exact List.mergeSort_perm _ _
  · intro a _ hb ha
    constructor
    · simp [resolveAttribute, hb, ha]
    · simp [resolveAttribute, hb, ha]
  · by_cases h : hasVertexData
        (VulkanRasterizingPipeline.ctorState scheme vertexShader fragmentShader) v
    · simp [compileVariant, h]
    · simp [compileVariant, h]
  · have hctor : VulkanRasterizingPipeline.ctorState scheme vertexShader
        fragmentShader =
        (if fragmentShader.valid then
          GetShaderBindings scheme fragmentShader
            (GetShaderBindings scheme vertexShader
              { bindingMap := [], vertexInputBindings := [],
                vertexInputAttributes := [] } shaderTypeVertex)
            shaderTypeFragment
        else
          GetShaderBindings scheme vertexShader
            { bindingMap := [], vertexInputBindings := [],
              vertexInputAttributes := [] } shaderTypeVertex) := by
      simp only [VulkanRasterizingPipeline.ctorState, hv, if_true]
    rw [hctor]
    by_cases hf : fragmentShader.valid = true
    · rw [if_pos hf, (GetShaderBindings_fragment_inputs scheme fragmentShader _).1,
        (GetShaderBindings_vertex_inputs scheme vertexShader _).1]
      by_cases ha : vertexShader.inputAttributes.any
          (fun ia => !scheme.isVertexElement ia.location)
      · rw [if_pos ha, if_pos ha]
        rfl
      · rw [if_neg ha, if_neg ha]
    · rw [if_neg hf, (GetShaderBindings_vertex_inputs scheme vertexShader _).1]
      by_cases ha : vertexShader.inputAttributes.any
          (fun ia => !scheme.isVertexElement ia.location)
      · rw [if_pos ha, if_pos ha]
        rfl
      · rw [if_neg ha, if_neg ha]

/-- Witness for C8: a vertex shader with one vertex attribute (location 0)
and one instance attribute (location 4), against a layout providing only
location 0 as a 3-component float at offset 0 with a 12-byte vertex size. -/
theorem compile_variant_inputs_witness :
    ((compileVariant
        (VulkanRasterizingPipeline.ctorState
          ⟨fun l => decide (l < 4), 4, 5, 6, 7, 0, 12, 24, 36, 40⟩
          ⟨true, [], [⟨0⟩, ⟨4⟩]⟩ ⟨true, [], []⟩)
        ⟨9, fun l => decide (l = 0), fun _ => 0, fun _ => 3,
          fun _ => ComponentDataType.float, 12⟩
        0).inputAttributeDescriptions.Pairwise
      (fun a b => a.offset ≤ b.offset)) ∧
    List.Perm
      (compileVariant
        (VulkanRasterizingPipeline.ctorState
          ⟨fun l => decide (l < 4), 4, 5, 6, 7, 0, 12, 24, 36, 40⟩
          ⟨true, [], [⟨0⟩, ⟨4⟩]⟩ ⟨true, [], []⟩)
        ⟨9, fun l => decide (l = 0), fun _ => 0, fun _ => 3,
          fun _ => ComponentDataType.float, 12⟩
        0).inputAttributeDescriptions
      ((VulkanRasterizingPipeline.ctorState
          ⟨fun l => decide (l < 4), 4, 5, 6, 7, 0, 12, 24, 36, 40⟩
          ⟨true, [], [⟨0⟩, ⟨4⟩]⟩ ⟨true, [], []⟩).vertexInputAttributes.map
        (resolveAttribute
          ⟨9, fun l => decide (l = 0), fun _ => 0, fun _ => 3,
            fun _ => ComponentDataType.float, 12⟩)) ∧
    (∀ a ∈ (VulkanRasterizingPipeline.ctorState
        ⟨fun l => decide (l < 4), 4, 5, 6, 7, 0, 12, 24, 36, 40⟩
        ⟨true, [], [⟨0⟩, ⟨4⟩]⟩ ⟨true, [], []⟩).vertexInputAttributes,
      a.binding ≠ 1 →
      (⟨9, fun l => decide (l = 0), fun _ => 0, fun _ => 3,
        fun _ => ComponentDataType.float, 12⟩ :
          VertexSpecification).isAvailable a.location = true →
      (resolveAttribute
        ⟨9, fun l => decide (l = 0), fun _ => 0, fun _ => 3,
          fun _ => ComponentDataType.float, 12⟩ a).offset =
        (⟨9, fun l => decide (l = 0), fun _ => 0, fun _ => 3,
          fun _ => ComponentDataType.float, 12⟩ :
            VertexSpecification).offsetOf a.location ∧
      (resolveAttribute
        ⟨9, fun l => decide (l = 0), fun _ => 0, fun _ => 3,
          fun _ => ComponentDataType.float, 12⟩ a).format =
        GetElementFormat
          ((⟨9, fun l => decide (l = 0), fun _ => 0, fun _ => 3,
            fun _ => ComponentDataType.float, 12⟩ :
              VertexSpecification).componentCountOf a.location)
          ((⟨9, fun l => decide (l = 0), fun _ => 0, fun _ => 3,
            fun _ => ComponentDataType.float, 12⟩ :
              VertexSpecification).componentDataTypeOf a.location)) ∧
    ((compileVariant
        (VulkanRasterizingPipeline.ctorState
          ⟨fun l => decide (l < 4), 4, 5, 6, 7, 0, 12, 24, 36, 40⟩
          ⟨true, [], [⟨0⟩, ⟨4⟩]⟩ ⟨true, [], []⟩)
        ⟨9, fun l => decide (l = 0), fun _ => 0, fun _ => 3,
          fun _ => ComponentDataType.float, 12⟩
        0).inputBindingDescriptions =
      (VulkanRasterizingPipeline.ctorState
          ⟨fun l => decide (l < 4), 4, 5, 6, 7, 0, 12, 24, 36, 40⟩
          ⟨true, [], [⟨0⟩, ⟨4⟩]⟩ ⟨true, [], []⟩).vertexInputBindings ++
        (if hasVertexData
            (VulkanRasterizingPipeline.ctorState
              ⟨fun l => decide (l < 4), 4, 5, 6, 7, 0, 12, 24, 36, 40⟩
              ⟨true, [], [⟨0⟩, ⟨4⟩]⟩ ⟨true, [], []⟩)
            ⟨9, fun l => decide (l = 0), fun _ => 0, fun _ => 3,
              fun _ => ComponentDataType.float, 12⟩ then
          [{ binding := 0, inputRate := VkVertexInputRate.vertex, stride := 12 }]
        else [])) ∧
    ((VulkanRasterizingPipeline.ctorState
        ⟨fun l => decide (l < 4), 4, 5, 6, 7, 0, 12, 24, 36, 40⟩
        ⟨true, [], [⟨0⟩, ⟨4⟩]⟩ ⟨true, [], []⟩).vertexInputBindings =
      if ([⟨0⟩, ⟨4⟩] : List ShaderAttribute).any
          (fun ia => !(fun l => decide (l < 4)) ia.location) then
        [{ binding := 1, inputRate := VkVertexInputRate.instance_, stride := 40 }]
      else []) :=
  compile_variant_inputs
    ⟨fun l => decide (l < 4), 4, 5, 6, 7, 0, 12, 24, 36, 40⟩
    ⟨true, [], [⟨0⟩, ⟨4⟩]⟩ ⟨true, [], []⟩
    ⟨9, fun l => decide (l = 0), fun _ => 0, fun _ => 3,
      fun _ => ComponentDataType.float, 12⟩
    0 rfl
